import Mathlib

/-!
Shallow embedding of the `share-api-mcp` repository (a Python MCP adapter for a
remote HTTP/JSON "share" API) and proofs about the claims on its specification.

Source files embedded:
  * `src/share_api_mcp/models.py`      — domain records and rendering
  * `src/share_api_mcp/api_client.py`  — JSON parsers, URL building, the
    fetch-entry-with-files orchestration
  * `src/share_api_mcp/mcp_server.py`  — tool entry points and error boundary
  * `src/share_api_mcp/config/settings.py` — configuration record

Modelling conventions:
  * Python strings are Lean `String`s; machine integers are `Int` (Python ints
    are unbounded, so no overflow modelling is needed).
  * JSON values are the inductive `JVal`; JSON numbers are modelled as integers
    (no claim exercises fractional numbers).  JSON objects are association
    lists; the server produces objects with unique keys, lookups take the
    first binding.
  * Code that raises is modelled with `Option`/`Except`; the error payload of
    an `Except` is the Python exception's message (`str(exc)`).
  * The network and the `json` module are oracles: each HTTP interaction is a
    function parameter producing `Except String _` outcomes, so theorems
    quantify over every possible remote behaviour.
  * Filesystem effects (directory creation, streaming writes, `os.path.abspath`)
    are outside the embedding: `os.path.abspath` is modelled as the identity
    and `os.path.join` as concatenation with "/".
-/

/-- `listHasPref pat l` is true when `pat` is an initial segment of `l`
(character-list version of Python's `str.startswith`). -/
def listHasPref : List Char → List Char → Bool
  | [], _ => true
  | _ :: _, [] => false
  | p :: ps, c :: cs => p == c && listHasPref ps cs

/-- `containsSub pat l` is true when `pat` occurs as a contiguous substring of
`l` (Python's `pat in l`). -/
def containsSub (pat : List Char) : List Char → Bool
  | [] => listHasPref pat []
  | c :: cs => listHasPref pat (c :: cs) || containsSub pat cs

/-- Fuel-indexed worker for `replaceSub`; the fuel bounds the number of scan
steps and is always at least the list's length at every call, so the
fuel-exhausted branch is unreachable. -/
def replaceSubAux (pat rep : List Char) : Nat → List Char → List Char
  | 0, l => l
  | _ + 1, [] => []
  | n + 1, c :: cs =>
    if listHasPref pat (c :: cs) then
      rep ++ replaceSubAux pat rep n (cs.drop (pat.length - 1))
    else
      c :: replaceSubAux pat rep n cs

/-- `replaceSub pat rep l` replaces every non-overlapping occurrence of `pat`
in `l` by `rep`, scanning left to right: Python's `str.replace`.  Only used
with the fixed non-empty pattern `"://localhost"`. -/
def replaceSub (pat rep : List Char) (l : List Char) : List Char :=
  replaceSubAux pat rep l.length l

/-- Strip every trailing `'/'` character: Python's `rstrip("/")`. -/
def rstripSlashes (l : List Char) : List Char :=
  (l.reverse.dropWhile (fun c => c == '/')).reverse

/-- The pattern rewritten by `_normalize_url`. -/
def localhostPat : List Char := "://localhost".toList

/-- The replacement used by `_normalize_url`. -/
def loopbackRep : List Char := "://127.0.0.1".toList

/-- `ShareApiClient._normalize_url`: replace `"://localhost"` with
`"://127.0.0.1"`, then strip trailing slashes. -/
def normalize_url (base_url : String) : String :=
  String.mk (rstripSlashes (replaceSub localhostPat loopbackRep base_url.toList))

/-- Request URL of `ShareApiClient.fetch_entry`. -/
def fetchEntryUrl (base_url : String) (entry_id : Int) : String :=
  normalize_url base_url ++ "/api.php/entries/" ++ toString entry_id

/-- Request URL of `ShareApiClient.download_file`. -/
def downloadFileUrl (base_url : String) (attachment_id : Int) : String :=
  normalize_url base_url ++ "/api.php/files/" ++ toString attachment_id

/-- Request URL of `ShareApiClient.download_entry_file`. -/
def downloadEntryFileUrl (base_url : String) (entry_id : Int) : String :=
  normalize_url base_url ++ "/api.php/entries/" ++ toString entry_id ++ "/file"

/-- Request URL of `ShareApiClient.list_entries`. -/
def listEntriesUrl (base_url : String) : String :=
  normalize_url base_url ++ "/api.php/entries"

/-- Request URL of `ShareApiClient.update_entry` and `delete_entry`. -/
def entryUrl (base_url : String) (entry_id : Int) : String :=
  normalize_url base_url ++ "/api.php/entries/" ++ toString entry_id

/-- Request URL of `ShareApiClient.list_custom_fields` / `create_custom_field`. -/
def customFieldsUrl (base_url : String) : String :=
  normalize_url base_url ++ "/api.php/custom-fields"

/-- Request URL of `ShareApiClient.update_custom_field` / `delete_custom_field`. -/
def customFieldUrl (base_url : String) (name : String) : String :=
  normalize_url base_url ++ "/api.php/custom-fields/" ++ name

/-- Request URL of `ShareApiClient.export_custom_fields`. -/
def exportCustomFieldsUrl (base_url : String) : String :=
  normalize_url base_url ++ "/api.php/custom-fields/export"

/-- Request URL of `ShareApiClient.import_custom_fields`. -/
def importCustomFieldsUrl (base_url : String) : String :=
  normalize_url base_url ++ "/api.php/custom-fields/import"

/-- Request URL of `ShareApiClient.list_field_options` / `create_field_option`. -/
def fieldOptionsUrl (base_url : String) (field_name : String) : String :=
  normalize_url base_url ++ "/api.php/field-options/" ++ field_name

/-- Request URL of `ShareApiClient.update_field_option` / `delete_field_option`. -/
def fieldOptionUrl (base_url : String) (field_name : String) (option_id : Int) : String :=
  normalize_url base_url ++ "/api.php/field-options/" ++ field_name ++ "/" ++ toString option_id

/-- Request URL of `ShareApiClient.delete_attachment`. -/
def attachmentUrl (base_url : String) (attachment_id : Int) : String :=
  normalize_url base_url ++ "/api.php/attachments/" ++ toString attachment_id

/-- Request URL of `ShareApiClient.get_auth_info`. -/
def authUrl (base_url : String) : String :=
  normalize_url base_url ++ "/api.php/auth"

/-- Request URL of `ShareApiClient.list_fields`. -/
def fieldsUrl (base_url : String) : String :=
  normalize_url base_url ++ "/api.php/fields"

/-- Request URL of `ShareApiClient.create_entry` (the `share.php` webhook). -/
def createEntryUrl (base_url : String) : String :=
  normalize_url base_url ++ "/share.php"

/-- True when the string's last character is `'/'`. -/
def endsWithSlash (s : String) : Bool :=
  match s.toList.getLast? with
  | some c => c == '/'
  | none => false

/-! ## JSON model and Python coercions -/

/-- A JSON value as produced by `response.json()`.  Numbers are modelled as
integers; objects are association lists (server objects have unique keys). -/
inductive JVal where
  | null : JVal
  | bool : Bool → JVal
  | num : Int → JVal
  | str : String → JVal
  | arr : List JVal → JVal
  | obj : List (String × JVal) → JVal
deriving Repr

/-- Python truthiness of a JSON-decoded value (`None`, `False`, `0`, `""`,
`[]`, `\x7b\x7d` are falsy). -/
def pyTruthy : JVal → Bool
  | .null => false
  | .bool b => b
  | .num n => n != 0
  | .str s => s != ""
  | .arr l => !l.isEmpty
  | .obj l => !l.isEmpty

/-- `data.get(k)`: `none` when the key is missing. -/
def getField (d : List (String × JVal)) (k : String) : Option JVal :=
  match d.find? (fun kv => kv.1 == k) with
  | some kv => some kv.2
  | none => none

/-- `data.get(k) or dflt`: the looked-up value when present and truthy,
otherwise the default. -/
def orDefault (v : Option JVal) (dflt : JVal) : JVal :=
  match v with
  | some x => if pyTruthy x then x else dflt
  | none => dflt

/-- Accumulate the value of a non-empty run of decimal digits. -/
def digitsVal : List Char → Nat → Option Nat
  | [], acc => some acc
  | c :: cs, acc =>
    if c.isDigit then digitsVal cs (acc * 10 + (c.toNat - 48)) else none

/-- Python `int(str)` on the optional-minus decimal strings the program feeds
it; `none` models a raised `ValueError`. -/
def pyIntOfString (s : String) : Option Int :=
  match s.toList with
  | [] => none
  | ['-'] => none
  | '-' :: cs => (digitsVal cs 0).map (fun n => -(n : Int))
  | cs => (digitsVal cs 0).map (fun n => (n : Int))

/-- Python `int(x)` applied to a JSON value; `none` models a raised error. -/
def pyToInt : JVal → Option Int
  | .num n => some n
  | .bool b => some (if b then 1 else 0)
  | .str s => pyIntOfString s
  | _ => none

/-- Python `str(x)` applied to a scalar JSON value.  Containers are modelled
as a coercion failure (`none`): the program never stringifies a container in
any behaviour the claims exercise, and modelling CPython `repr` of nested
containers is outside the embedding. -/
def pyToStr : JVal → Option String
  | .null => some "None"
  | .bool b => some (if b then "True" else "False")
  | .num n => some (toString n)
  | .str s => some s
  | _ => none

/-- Python `dict(x)` applied to a JSON value, with the mapping's values taken
to their `str()` image (the program only ever observes body values through
`str()`, so records store the stringified image). -/
def pyToDict : JVal → Option (List (String × String))
  | .obj kvs => kvs.mapM (fun kv => (pyToStr kv.2).map (fun s => (kv.1, s)))
  | _ => none

/-! ## Domain records (`models.py`) -/

/-- `Settings` (`config/settings.py`): immutable configuration. -/
structure Settings where
  base_url : String
  download_dir : String := "./downloads"
  auth_user : String := ""
  auth_password : String := ""
  project_id : String := ""
deriving Repr, DecidableEq

/-- `Attachment`: a single attachment on an entry.  `body` holds the `str()`
image of each mapping value. -/
structure Attachment where
  id : Int
  type : String
  body : List (String × String) := []
  filename : String := ""
  file_size : Int := 0
  file_url : String := ""
deriving Repr, DecidableEq

/-- `Entry`: a shared entry from the API. -/
structure Entry where
  id : Int
  type : String
  subject : String
  body : List (String × String) := []
  filename : String := ""
  file_size : Int := 0
  file_url : String := ""
  attachments : List Attachment := []
deriving Repr, DecidableEq

/-- `FailedDownload`: a file attachment that could not be downloaded. -/
structure FailedDownload where
  attachment_id : Int
  filename : String
  error : String
deriving Repr, DecidableEq

/-- `DownloadedFile`: a file that was downloaded from the API. -/
structure DownloadedFile where
  attachment_id : Int
  filename : String
  file_path : String
  file_size : Int
deriving Repr, DecidableEq

/-- `EntryResult`: combined result of fetching an entry and downloading its
files. -/
structure EntryResult where
  entry : Entry
  downloaded_files : List DownloadedFile := []
  failed_downloads : List FailedDownload := []
  content_md_path : String := ""
deriving Repr, DecidableEq

/-- `MessageResult`: simple message response. -/
structure MessageResult where
  message : String
deriving Repr, DecidableEq

/-- `EntrySummary`: an entry summary from the list endpoint (its `body` is a
plain string there). -/
structure EntrySummary where
  id : Int
  type : String
  subject : String
  body : String := ""
  filename : String := ""
  file_size : Int := 0
  attachment_count : Int := 0
  created_at : String := ""
deriving Repr, DecidableEq

/-- `EntryListResult`: paginated list of entry summaries. -/
structure EntryListResult where
  entries : List EntrySummary := []
  total : Int := 0
  page : Int := 1
  per_page : Int := 20
deriving Repr, DecidableEq

/-- `CustomField`: a custom field definition. -/
structure CustomField where
  name : String
  description : String := ""
  sort_order : Int := 0
  option_count : Int := 0
  created_at : String := ""
deriving Repr, DecidableEq

/-- `CustomFieldListResult`: list of custom fields. -/
structure CustomFieldListResult where
  fields : List CustomField := []
deriving Repr, DecidableEq

/-- `FieldOption`: an option value for a custom field. -/
structure FieldOption where
  id : Int
  field_name : String
  name : String
  created_at : String := ""
  entry_count : Int := 0
deriving Repr, DecidableEq

/-- `FieldOptionListResult`: list of options for a custom field. -/
structure FieldOptionListResult where
  field_name : String
  options : List FieldOption := []
deriving Repr, DecidableEq

/-- `ExportedField`: a custom field with its option names for export. -/
structure ExportedField where
  name : String
  description : String := ""
  sort_order : Int := 0
  options : List String := []
deriving Repr, DecidableEq

/-- `CustomFieldExportResult`: export of all custom fields with options. -/
structure CustomFieldExportResult where
  fields : List ExportedField := []
deriving Repr, DecidableEq

/-- `ImportResult`: result of importing custom fields. -/
structure ImportResult where
  fields_created : Int := 0
  options_created : Int := 0
deriving Repr, DecidableEq

/-- `AuthInfo`: authentication method info. -/
structure AuthInfo where
  method : String
deriving Repr, DecidableEq

/-- `FieldDescriptor`: schema descriptor for a field. -/
structure FieldDescriptor where
  name : String
  type : String := ""
  description : String := ""
  resource_path : String := ""
deriving Repr, DecidableEq

/-- `FieldListResult`: list of field descriptors. -/
structure FieldListResult where
  fields : List FieldDescriptor := []
deriving Repr, DecidableEq

/-! ## Record parsers (`api_client.py`) -/

/-- `_parse_attachment`: parse a single attachment from API JSON.  `none`
models a raised exception (non-object input, or a non-coercible field). -/
def _parse_attachment : JVal → Option Attachment
  | .obj d => do
    let i ← pyToInt (orDefault (getField d "id") (.num 0))
    let ty ← pyToStr (orDefault (getField d "type") (.str ""))
    let bd ← pyToDict (orDefault (getField d "body") (.obj []))
    let fn ← pyToStr (orDefault (getField d "filename") (.str ""))
    let fsz ← pyToInt (orDefault (getField d "file_size") (.num 0))
    let fu ← pyToStr (orDefault (getField d "file_url") (.str ""))
    pure ⟨i, ty, bd, fn, fsz, fu⟩
  | _ => none

/-- Iterating `data.get("attachments", [])` into a tuple of parsed
attachments.  A non-array value (including an explicit `null`, which Python
cannot iterate) raises. -/
def iterAttachments : JVal → Option (List Attachment)
  | .arr l => l.mapM _parse_attachment
  | _ => none

/-- `_parse_entry`: parse an entry from API JSON.  Note the asymmetry in the
source: `data.get("attachments", [])` substitutes the empty list only when
the key is missing; an explicit `null` value is iterated and raises. -/
def _parse_entry : JVal → Option Entry
  | .obj d => do
    let atts ← iterAttachments ((getField d "attachments").getD (.arr []))
    let i ← pyToInt (orDefault (getField d "id") (.num 0))
    let ty ← pyToStr (orDefault (getField d "type") (.str ""))
    let subj ← pyToStr (orDefault (getField d "subject") (.str ""))
    let bd ← pyToDict (orDefault (getField d "body") (.obj []))
    let fn ← pyToStr (orDefault (getField d "filename") (.str ""))
    let fsz ← pyToInt (orDefault (getField d "file_size") (.num 0))
    let fu ← pyToStr (orDefault (getField d "file_url") (.str ""))
    pure ⟨i, ty, subj, bd, fn, fsz, fu, atts⟩
  | _ => none

/-- `_parse_entry_summary`: parse an entry summary from the list endpoint
(`body` is coerced to a string there). -/
def _parse_entry_summary : JVal → Option EntrySummary
  | .obj d => do
    let i ← pyToInt (orDefault (getField d "id") (.num 0))
    let ty ← pyToStr (orDefault (getField d "type") (.str ""))
    let subj ← pyToStr (orDefault (getField d "subject") (.str ""))
    let bd ← pyToStr (orDefault (getField d "body") (.str ""))
    let fn ← pyToStr (orDefault (getField d "filename") (.str ""))
    let fsz ← pyToInt (orDefault (getField d "file_size") (.num 0))
    let ac ← pyToInt (orDefault (getField d "attachment_count") (.num 0))
    let ca ← pyToStr (orDefault (getField d "created_at") (.str ""))
    pure ⟨i, ty, subj, bd, fn, fsz, ac, ca⟩
  | _ => none

/-- `_parse_custom_field`: parse a custom field from API JSON. -/
def _parse_custom_field : JVal → Option CustomField
  | .obj d => do
    let nm ← pyToStr (orDefault (getField d "name") (.str ""))
    let ds ← pyToStr (orDefault (getField d "description") (.str ""))
    let so ← pyToInt (orDefault (getField d "sort_order") (.num 0))
    let oc ← pyToInt (orDefault (getField d "option_count") (.num 0))
    let ca ← pyToStr (orDefault (getField d "created_at") (.str ""))
    pure ⟨nm, ds, so, oc, ca⟩
  | _ => none

/-- `_parse_field_option`: parse a field option from API JSON; the
`field_name` argument is the fallback for a missing/falsy `field_name`
field. -/
def _parse_field_option (v : JVal) (field_name : String := "") : Option FieldOption :=
  match v with
  | .obj d => do
    let i ← pyToInt (orDefault (getField d "id") (.num 0))
    let fn ← pyToStr (orDefault (getField d "field_name") (.str field_name))
    let nm ← pyToStr (orDefault (getField d "name") (.str ""))
    let ca ← pyToStr (orDefault (getField d "created_at") (.str ""))
    let ec ← pyToInt (orDefault (getField d "entry_count") (.num 0))
    pure ⟨i, fn, nm, ca, ec⟩
  | _ => none

/-- Iterating `data.get("options", [])` into a tuple of stringified options;
like `iterAttachments`, an explicit `null` raises. -/
def iterOptions : JVal → Option (List String)
  | .arr l => l.mapM pyToStr
  | _ => none

/-- `_parse_exported_field`: parse an exported field from API JSON. -/
def _parse_exported_field : JVal → Option ExportedField
  | .obj d => do
    let opts ← iterOptions ((getField d "options").getD (.arr []))
    let nm ← pyToStr (orDefault (getField d "name") (.str ""))
    let ds ← pyToStr (orDefault (getField d "description") (.str ""))
    let so ← pyToInt (orDefault (getField d "sort_order") (.num 0))
    pure ⟨nm, ds, so, opts⟩
  | _ => none

/-- `_parse_field_descriptor`: parse a field descriptor from the schema
endpoint. -/
def _parse_field_descriptor : JVal → Option FieldDescriptor
  | .obj d => do
    let nm ← pyToStr (orDefault (getField d "name") (.str ""))
    let ty ← pyToStr (orDefault (getField d "type") (.str ""))
    let ds ← pyToStr (orDefault (getField d "description") (.str ""))
    let rp ← pyToStr (orDefault (getField d "resource_path") (.str ""))
    pure ⟨nm, ty, ds, rp⟩
  | _ => none

/-! ## Markdown and display rendering (`models.py`) -/

/-- `_IMAGE_EXTENSIONS`. -/
def IMAGE_EXTENSIONS : List String :=
  [".png", ".jpg", ".jpeg", ".gif", ".bmp", ".webp", ".svg", ".tiff", ".ico"]

/-- The suffix of a character list starting at its last `'.'`, or `none` when
no dot occurs: `filename[filename.rfind("."):]` with the `rfind < 0` guard. -/
def lastDotSuffix : List Char → Option (List Char)
  | [] => none
  | c :: cs =>
    match lastDotSuffix cs with
    | some r => some r
    | none => if c == '.' then some (c :: cs) else none

/-- `_is_image_file`: the filename's final extension, lower-cased, is a
recognized image extension. -/
def _is_image_file (filename : String) : Bool :=
  match lastDotSuffix filename.toList with
  | none => false
  | some ext => IMAGE_EXTENSIONS.contains (String.mk (ext.map Char.toLower))

/-- Python `str.strip()`: drop whitespace from both ends. -/
def pyStrip (s : String) : String :=
  String.mk (((s.toList.dropWhile Char.isWhitespace).reverse.dropWhile Char.isWhitespace).reverse)

/-- `"\n".join(lines)`. -/
def joinLines : List String → String
  | [] => ""
  | [x] => x
  | x :: y :: rest => x ++ "\n" ++ joinLines (y :: rest)

/-- The `lines` appended for one mapping's values: each value, stripped, as a
paragraph followed by a blank line when non-empty. -/
def bodyParagraphs (body : List (String × String)) : List String :=
  body.foldl (fun acc kv =>
    let text := pyStrip kv.2
    if text ≠ "" then acc ++ [text, ""] else acc) []

/-- The `lines` appended for one attachment in `generate_content_markdown`. -/
def attachmentMarkdownLines (att : Attachment) : List String :=
  if att.type = "text" then
    bodyParagraphs att.body
  else if att.type = "file" ∧ att.filename ≠ "" ∧ _is_image_file att.filename then
    ["![" ++ att.filename ++ "](" ++ att.filename ++ ")", ""]
  else []

/-- `EntryResult.generate_content_markdown`: heading, body paragraphs, the
entry-level image reference when applicable, then each attachment's lines. -/
def EntryResult.generate_content_markdown (r : EntryResult) : String :=
  let header := ["# " ++ r.entry.subject, ""]
  let bodyLines := bodyParagraphs r.entry.body
  let entryImage :=
    if r.entry.filename ≠ "" ∧ _is_image_file r.entry.filename then
      ["![" ++ r.entry.filename ++ "](" ++ r.entry.filename ++ ")", ""]
    else []
  let attLines := r.entry.attachments.foldl (fun acc att => acc ++ attachmentMarkdownLines att) []
  joinLines (header ++ bodyLines ++ entryImage ++ attLines)

/-- The display lines of one attachment in `EntryResult.format_output`. -/
def attachmentDisplayLines (att : Attachment) : List String :=
  (if att.filename ≠ "" then
    ["  [" ++ toString att.id ++ "] " ++ att.type ++ ": " ++ att.filename
      ++ " (" ++ toString att.file_size ++ " bytes)"]
  else
    ["  [" ++ toString att.id ++ "] " ++ att.type])
  ++ att.body.map (fun kv => "    " ++ kv.1 ++ ": " ++ kv.2)

/-- `EntryResult.format_output`. -/
def EntryResult.format_output (r : EntryResult) : String :=
  let l0 := ["Entry #" ++ toString r.entry.id ++ ": " ++ r.entry.subject,
             "Type: " ++ r.entry.type]
  let l1 := if !r.entry.body.isEmpty then
      ["", "Body:"] ++ r.entry.body.map (fun kv => "  " ++ kv.1 ++ ": " ++ kv.2)
    else []
  let l2 := if r.entry.filename ≠ "" then
      ["File: " ++ r.entry.filename ++ " (" ++ toString r.entry.file_size ++ " bytes)"]
    else []
  let l3 := if !r.entry.attachments.isEmpty then
      ["", "Attachments (" ++ toString r.entry.attachments.length ++ "):"]
        ++ r.entry.attachments.foldl (fun acc att => acc ++ attachmentDisplayLines att) []
    else []
  let l4 := if !r.downloaded_files.isEmpty then
      ["", "Downloaded files:"]
        ++ r.downloaded_files.map (fun df =>
            "  " ++ df.filename ++ " -> " ++ df.file_path
              ++ " (" ++ toString df.file_size ++ " bytes)")
    else []
  let l5 := if !r.failed_downloads.isEmpty then
      ["", "Failed downloads:"]
        ++ r.failed_downloads.map (fun fd =>
            "  [" ++ toString fd.attachment_id ++ "] " ++ fd.filename ++ ": " ++ fd.error)
    else []
  let l6 := if r.content_md_path ≠ "" then ["", "Content markdown: " ++ r.content_md_path] else []
  joinLines (l0 ++ l1 ++ l2 ++ l3 ++ l4 ++ l5 ++ l6)

/-- `MessageResult.format_output`. -/
def MessageResult.format_output (m : MessageResult) : String := m.message

/-- `EntryListResult.format_output`. -/
def EntryListResult.format_output (r : EntryListResult) : String :=
  joinLines (("Entries (page " ++ toString r.page ++ ", " ++ toString r.total ++ " total):")
    :: r.entries.map (fun e =>
        "  [" ++ toString e.id ++ "] " ++ e.subject ++ " (" ++ e.type ++ ")"
          ++ (if e.filename ≠ "" then " file=" ++ e.filename else "")
          ++ (if e.attachment_count != 0 then " attachments=" ++ toString e.attachment_count else "")))

/-- `CustomField.format_output`. -/
def CustomField.format_output (f : CustomField) : String :=
  joinLines (["Custom field: " ++ f.name]
    ++ (if f.description ≠ "" then ["  Description: " ++ f.description] else [])
    ++ ["  Sort order: " ++ toString f.sort_order]
    ++ (if f.option_count != 0 then ["  Options: " ++ toString f.option_count] else []))

/-- `CustomFieldListResult.format_output`. -/
def CustomFieldListResult.format_output (r : CustomFieldListResult) : String :=
  joinLines (("Custom fields (" ++ toString r.fields.length ++ "):")
    :: r.fields.map (fun f =>
        "  " ++ f.name ++ " (sort=" ++ toString f.sort_order
          ++ ", options=" ++ toString f.option_count ++ ")"))

/-- `FieldOption.format_output`. -/
def FieldOption.format_output (o : FieldOption) : String :=
  "Option [" ++ toString o.id ++ "] " ++ o.field_name ++ ": " ++ o.name
    ++ " (entries=" ++ toString o.entry_count ++ ")"

/-- `FieldOptionListResult.format_output`. -/
def FieldOptionListResult.format_output (r : FieldOptionListResult) : String :=
  joinLines (("Options for \x27" ++ r.field_name ++ "\x27 (" ++ toString r.options.length ++ "):")
    :: r.options.map (fun o =>
        "  [" ++ toString o.id ++ "] " ++ o.name ++ " (entries=" ++ toString o.entry_count ++ ")"))

/-- `CustomFieldExportResult.format_output`. -/
def CustomFieldExportResult.format_output (r : CustomFieldExportResult) : String :=
  joinLines (("Exported fields (" ++ toString r.fields.length ++ "):")
    :: r.fields.foldl (fun acc f =>
        acc ++ (("  " ++ f.name ++ " (sort=" ++ toString f.sort_order
                  ++ ", options=" ++ toString f.options.length ++ ")")
          :: f.options.map (fun opt => "    - " ++ opt))) [])

/-- `ImportResult.format_output`. -/
def ImportResult.format_output (r : ImportResult) : String :=
  "Import complete: " ++ toString r.fields_created ++ " fields created, "
    ++ toString r.options_created ++ " options created"

/-- `AuthInfo.format_output`. -/
def AuthInfo.format_output (a : AuthInfo) : String := "Auth method: " ++ a.method

/-- `FieldListResult.format_output`. -/
def FieldListResult.format_output (r : FieldListResult) : String :=
  joinLines (("Fields (" ++ toString r.fields.length ++ "):")
    :: r.fields.map (fun f =>
        "  " ++ f.name
          ++ (if f.type ≠ "" then " (" ++ f.type ++ ")" else "")
          ++ (if f.description ≠ "" then " - " ++ f.description else "")))

/-! ## Download orchestration (`api_client.py`) -/

/-- `os.path.join` as used by the client (a simple directory/filename join). -/
def joinPath (dir filename : String) : String := dir ++ "/" ++ filename

/-- The remote side of the orchestration: the outcome of each streaming GET.
An `Except.error` carries `str(exc)` of the raised exception; an `Except.ok`
carries the byte count streamed to disk.  `attFile i` is the outcome of the
download attempted for the `i`-th attachment of the entry (by position). -/
structure DownloadEnv where
  entryFile : Except String Int
  attFile : Nat → Except String Int

/-- `ShareApiClient.download_file`: on success, a `DownloadedFile` keyed by
the attachment id whose path is `{download_dir}/{filename}`. -/
def download_file (outcome : Except String Int) (attachment_id : Int)
    (filename download_dir : String) : Except String DownloadedFile :=
  outcome.map (fun n => ⟨attachment_id, filename, joinPath download_dir filename, n⟩)

/-- `ShareApiClient.download_entry_file`: like `download_file` but keyed by
the entry's own id. -/
def download_entry_file (outcome : Except String Int) (entry_id : Int)
    (filename download_dir : String) : Except String DownloadedFile :=
  outcome.map (fun n => ⟨entry_id, filename, joinPath download_dir filename, n⟩)

/-- Candidate test of the attachment loop:
`if att.type == "file" and att.filename:`. -/
def isFileCandidate (att : Attachment) : Bool :=
  att.type == "file" && att.filename != ""

/-- The attachment loop of `fetch_entry_with_files`: walk the attachments in
order (the counter `i` indexes into the download environment), appending to
the accumulated `downloaded`/`failed` lists exactly as the source appends. -/
def processAttachments (env : Nat → Except String Int) (entry_dir : String) :
    Nat → List Attachment → List DownloadedFile → List FailedDownload →
    List DownloadedFile × List FailedDownload
  | _, [], downloaded, failed => (downloaded, failed)
  | i, att :: rest, downloaded, failed =>
    if isFileCandidate att then
      if att.file_url == "" then
        processAttachments env entry_dir (i + 1) rest downloaded
          (failed ++ [⟨att.id, att.filename, "File not available on server"⟩])
      else
        match download_file (env i) att.id att.filename entry_dir with
        | .ok df => processAttachments env entry_dir (i + 1) rest (downloaded ++ [df]) failed
        | .error e =>
          processAttachments env entry_dir (i + 1) rest downloaded
            (failed ++ [⟨att.id, att.filename, e⟩])
    else
      processAttachments env entry_dir (i + 1) rest downloaded failed

/-- The entry-level download step of `fetch_entry_with_files`
(`if entry.file_url and entry.filename:` with its `try/except`): the initial
`downloaded`/`failed` accumulators. -/
def entryLevelStep (outcome : Except String Int) (entry : Entry) (entry_dir : String) :
    List DownloadedFile × List FailedDownload :=
  if entry.file_url ≠ "" ∧ entry.filename ≠ "" then
    match download_entry_file outcome entry.id entry.filename entry_dir with
    | .ok df => ([df], ([] : List FailedDownload))
    | .error e => ([], [⟨entry.id, entry.filename, e⟩])
  else ([], [])

/-- `ShareApiClient.fetch_entry_with_files`: step 1 (fetching the entry) is
passed in as an `Except` — its failure propagates untouched; every download
failure is demoted to a `FailedDownload`.  `os.path.abspath` is modelled as
the identity. -/
def fetch_entry_with_files (env : DownloadEnv) (fetched : Except String Entry)
    (download_dir : String) (entry_id : Int) : Except String EntryResult :=
  match fetched with
  | .error e => .error e
  | .ok entry =>
    let entry_dir := joinPath download_dir (toString entry_id)
    let first := entryLevelStep env.entryFile entry entry_dir
    let looped := processAttachments env.attFile entry_dir 0 entry.attachments first.1 first.2
    .ok ⟨entry, looped.1, looped.2, joinPath entry_dir "content.md"⟩

/-! ## Tool entry points (`mcp_server.py`)

Each tool is modelled as a function of its string/int arguments plus:
  * `settings` — the configuration `Settings.from_env()` would load;
  * oracle parameters for the `json` module (`parseJson`, returning the
    decoded value or the `JSONDecodeError` message) and for the client call
    (returning the parsed result or the raised exception's message).
The `try/except` boundary is `runTool`: an `Except.error` anywhere in the
pipeline becomes the string `"Error: " ++ message`.  The early
`return f"Error: Invalid ... JSON: ..."` statements in the source produce
exactly the same output string as routing the message through the boundary,
so they are modelled as pipeline errors carrying `"Invalid ... JSON: ..."`.
The filters / custom-fields / extra-fields JSON strings are modelled as
decoding to JSON objects (the only shape the claims exercise). -/

/-- The `ValueError` message raised by `_resolve_base_url`. -/
def noBaseUrlMsg : String :=
  "No base_url provided. Set SHARE_API_BASE_URL or pass base_url argument."

/-- `_resolve_base_url`: explicit argument, else configured default; absence
of both raises `ValueError` with the fixed message. -/
def _resolve_base_url (base_url : String) (settings : Settings) : Except String String :=
  let effective := if base_url ≠ "" then base_url else settings.base_url
  if effective = "" then .error noBaseUrlMsg
  else .ok effective

/-- The `try/except` boundary shared by every tool: render a pipeline failure
as `"Error: {message}"`. -/
def runTool (pipeline : Except String String) : String :=
  match pipeline with
  | .ok s => s
  | .error e => "Error: " ++ e

/-- Tool `fetch_shared_entry`; `client eb ed` is the outcome of
`ShareApiClient.fetch_entry_with_files(eb, entry_id, ed)`. -/
def fetch_shared_entry (settings : Settings)
    (client : String → String → Except String EntryResult)
    (entry_id : Int) (base_url download_dir : String) : String :=
  runTool (do
    let eb ← _resolve_base_url base_url settings
    let ed := if download_dir ≠ "" then download_dir else settings.download_dir
    let result ← client eb ed
    pure result.format_output)

/-- `"project_id" in parsed_filters` (with `parsed_filters is None` as false). -/
def callerSuppliedProject (parsed : Option (List (String × JVal))) : Bool :=
  match parsed with
  | none => false
  | some kvs => kvs.any (fun kv => kv.1 == "project_id")

/-- The `project_id` merge step of the `list_entries` tool: when a default
project id is configured and the caller did not supply one, add
`int(settings.project_id)` under the key `"project_id"` (a non-numeric
configured id makes `int()` raise). -/
def mergeProjectFilter (settings : Settings) (parsed : Option (List (String × JVal))) :
    Except String (Option (List (String × JVal))) :=
  if settings.project_id ≠ "" ∧ callerSuppliedProject parsed = false then
    match pyIntOfString settings.project_id with
    | some n => .ok (some ((parsed.getD []) ++ [("project_id", JVal.num n)]))
    | none => .error ("invalid literal for int() with base 10: " ++ settings.project_id)
  else .ok parsed

/-- Tool `list_entries`; `client eb page per_page filters` is the outcome of
`ShareApiClient.list_entries`. -/
def list_entries (settings : Settings)
    (parseJson : String → Except String (List (String × JVal)))
    (client : String → Int → Int → Option (List (String × JVal)) → Except String EntryListResult)
    (base_url : String) (page per_page : Int) (filters : String) : String :=
  runTool (do
    let eb ← _resolve_base_url base_url settings
    let parsed ←
      if filters ≠ "" then
        match parseJson filters with
        | .ok kvs => Except.ok (some kvs)
        | .error je => Except.error ("Invalid filters JSON: " ++ je)
      else Except.ok none
    let merged ← mergeProjectFilter settings parsed
    let result ← client eb page per_page merged
    pure result.format_output)

/-- `dict.update`: replace the value of an existing key in place, append new
keys in order. -/
def dictUpdate (d upd : List (String × JVal)) : List (String × JVal) :=
  upd.foldl (fun acc kv =>
    if acc.any (fun kv2 => kv2.1 == kv.1) then
      acc.map (fun kv2 => if kv2.1 == kv.1 then (kv2.1, kv.2) else kv2)
    else acc ++ [kv]) d

/-- The payload construction of the `update_entry` tool: `subject` when
non-empty, `body` (decoded) when the body argument string is non-empty,
then `payload.update(json.loads(custom_fields))` when that argument string
is non-empty. -/
def buildUpdatePayload (parseJson : String → Except String JVal)
    (parseObj : String → Except String (List (String × JVal)))
    (subject body custom_fields : String) : Except String (List (String × JVal)) := do
  let p0 : List (String × JVal) := if subject ≠ "" then [("subject", JVal.str subject)] else []
  let p1 ←
    if body ≠ "" then
      match parseJson body with
      | .ok v => Except.ok (p0 ++ [("body", v)])
      | .error je => Except.error ("Invalid body JSON: " ++ je)
    else Except.ok p0
  if custom_fields ≠ "" then
    match parseObj custom_fields with
    | .ok kvs => Except.ok (dictUpdate p1 kvs)
    | .error je => Except.error ("Invalid custom_fields JSON: " ++ je)
  else Except.ok p1

/-- Tool `update_entry`; `client eb entry_id payload` is the outcome of
`ShareApiClient.update_entry`. -/
def update_entry (settings : Settings)
    (parseJson : String → Except String JVal)
    (parseObj : String → Except String (List (String × JVal)))
    (client : String → Int → List (String × JVal) → Except String Entry)
    (entry_id : Int) (base_url subject body custom_fields : String) : String :=
  runTool (do
    let eb ← _resolve_base_url base_url settings
    let payload ← buildUpdatePayload parseJson parseObj subject body custom_fields
    let entry ← client eb entry_id payload
    pure ("Updated entry #" ++ toString entry.id ++ ": " ++ entry.subject))

/-- Tool `delete_entry`. -/
def delete_entry (settings : Settings) (client : String → Except String MessageResult)
    (entry_id : Int) (base_url : String) : String :=
  runTool (do
    let eb ← _resolve_base_url base_url settings
    let result ← client eb
    pure result.format_output)

/-- Tool `list_custom_fields`. -/
def list_custom_fields (settings : Settings)
    (client : String → Except String CustomFieldListResult) (base_url : String) : String :=
  runTool (do
    let eb ← _resolve_base_url base_url settings
    let result ← client eb
    pure result.format_output)

/-- Tool `create_custom_field`. -/
def create_custom_field (settings : Settings)
    (client : String → Except String CustomField)
    (name : String) (base_url description : String) (sort_order : Int) : String :=
  runTool (do
    let eb ← _resolve_base_url base_url settings
    let field ← client eb
    pure field.format_output)

/-- Tool `update_custom_field`. -/
def update_custom_field (settings : Settings)
    (client : String → Except String CustomField)
    (name : String) (base_url description : String) (sort_order : Int) : String :=
  runTool (do
    let eb ← _resolve_base_url base_url settings
    let field ← client eb
    pure field.format_output)

/-- Tool `delete_custom_field`. -/
def delete_custom_field (settings : Settings)
    (client : String → Except String MessageResult)
    (name : String) (base_url : String) : String :=
  runTool (do
    let eb ← _resolve_base_url base_url settings
    let result ← client eb
    pure result.format_output)

/-- Tool `export_custom_fields`. -/
def export_custom_fields (settings : Settings)
    (client : String → Except String CustomFieldExportResult) (base_url : String) : String :=
  runTool (do
    let eb ← _resolve_base_url base_url settings
    let result ← client eb
    pure result.format_output)

/-- Tool `import_custom_fields`; the `fields_json` argument is decoded before
the client call, a decode failure becoming the early error return. -/
def import_custom_fields (settings : Settings)
    (parseJson : String → Except String JVal)
    (client : String → JVal → Except String ImportResult)
    (fields_json base_url : String) : String :=
  runTool (do
    let eb ← _resolve_base_url base_url settings
    let parsed ←
      match parseJson fields_json with
      | .ok v => Except.ok v
      | .error je => Except.error ("Invalid fields_json: " ++ je)
    let result ← client eb parsed
    pure result.format_output)

/-- Tool `list_field_options`. -/
def list_field_options (settings : Settings)
    (client : String → Except String FieldOptionListResult)
    (field_name base_url : String) : String :=
  runTool (do
    let eb ← _resolve_base_url base_url settings
    let result ← client eb
    pure result.format_output)

/-- Tool `create_field_option`. -/
def create_field_option (settings : Settings)
    (client : String → Except String FieldOption)
    (field_name name base_url : String) : String :=
  runTool (do
    let eb ← _resolve_base_url base_url settings
    let option ← client eb
    pure option.format_output)

/-- Tool `update_field_option`. -/
def update_field_option (settings : Settings)
    (client : String → Except String FieldOption)
    (field_name : String) (option_id : Int) (name base_url : String) : String :=
  runTool (do
    let eb ← _resolve_base_url base_url settings
    let option ← client eb
    pure option.format_output)

/-- Tool `delete_field_option`. -/
def delete_field_option (settings : Settings)
    (client : String → Except String MessageResult)
    (field_name : String) (option_id : Int) (base_url : String) : String :=
  runTool (do
    let eb ← _resolve_base_url base_url settings
    let result ← client eb
    pure result.format_output)

/-- Tool `delete_attachment`. -/
def delete_attachment (settings : Settings)
    (client : String → Except String MessageResult)
    (attachment_id : Int) (base_url : String) : String :=
  runTool (do
    let eb ← _resolve_base_url base_url settings
    let result ← client eb
    pure result.format_output)

/-- Tool `get_auth_info`. -/
def get_auth_info (settings : Settings)
    (client : String → Except String AuthInfo) (base_url : String) : String :=
  runTool (do
    let eb ← _resolve_base_url base_url settings
    let result ← client eb
    pure result.format_output)

/-- Tool `list_fields`. -/
def list_fields (settings : Settings)
    (client : String → Except String FieldListResult) (base_url : String) : String :=
  runTool (do
    let eb ← _resolve_base_url base_url settings
    let result ← client eb
    pure result.format_output)

/-- Tool `create_entry`; `client eb` is the outcome of
`ShareApiClient.create_entry` (the returned entry-id string). -/
def create_entry (settings : Settings)
    (parseJson : String → Except String (List (String × JVal)))
    (client : String → Except String String)
    (base_url text_or_url file_path extra_fields : String) : String :=
  runTool (do
    let eb ← _resolve_base_url base_url settings
    let _parsed ←
      if extra_fields ≠ "" then
        match parseJson extra_fields with
        | .ok kvs => Except.ok (some kvs)
        | .error je => Except.error ("Invalid extra_fields JSON: " ++ je)
      else Except.ok none
    let entry_id ← client eb
    pure ("Created entry: " ++ entry_id))

/-! ## Helper lemmas -/

/-- A scan that never finds the pattern leaves the list unchanged. -/
theorem replaceSubAux_not_contains (pat rep : List Char) :
    ∀ (n : Nat) (l : List Char), containsSub pat l = false → replaceSubAux pat rep n l = l := by
  intro n
  induction n with
  | zero => intro l _; rfl
  | succ n ih =>
    intro l h
    cases l with
    | nil => rfl
    | cons c cs =>
      simp only [containsSub, Bool.or_eq_false_iff] at h
      simp [replaceSubAux, h.1, ih cs h.2]

/-- `str.replace` is the identity when the pattern does not occur. -/
theorem replaceSub_not_contains (pat rep : List Char) (l : List Char)
    (h : containsSub pat l = false) : replaceSub pat rep l = l :=
  replaceSubAux_not_contains pat rep l.length l h

/-- The first element surviving `dropWhile` fails the predicate. -/
theorem dropWhile_first_not (p : Char → Bool) :
    ∀ (l : List Char) (c : Char) (t : List Char), l.dropWhile p = c :: t → p c = false := by
  intro l
  induction l with
  | nil => intro c t h; simp [List.dropWhile] at h
  | cons x xs ih =>
    intro c t h
    by_cases hx : p x
    · rw [List.dropWhile_cons_of_pos hx] at h
      exact ih c t h
    · rw [List.dropWhile_cons_of_neg hx] at h
      cases h
      exact Bool.of_not_eq_true hx

/-- After `rstrip("/")` no trailing slash remains. -/
theorem endsWithSlash_rstrip (l : List Char) :
    endsWithSlash (String.mk (rstripSlashes l)) = false := by
  unfold endsWithSlash rstripSlashes
  have htl : (String.mk ((l.reverse.dropWhile (fun c => c == '/')).reverse)).toList
      = (l.reverse.dropWhile (fun c => c == '/')).reverse := rfl
  rw [htl, List.getLast?_reverse]
  cases hd : l.reverse.dropWhile (fun c => c == '/') with
  | nil => rfl
  | cons c t =>
    simp only [List.head?]
    exact dropWhile_first_not _ _ c t hd

/-! ## Claim theorems -/

/-- C6: base-URL normalization strips all trailing slash characters before
path concatenation; for every base URL and entry id the fetch-entry request
URL is the normalized base followed by `/api.php/entries/{id}`, and in
particular `http://example.com///` with entry id 42 yields
`http://example.com/api.php/entries/42`. -/
theorem c6_trailing_slash_normalization :
    (∀ (base_url : String) (entry_id : Int),
        fetchEntryUrl base_url entry_id
          = normalize_url base_url ++ "/api.php/entries/" ++ toString entry_id)
    ∧ (∀ base_url : String, endsWithSlash (normalize_url base_url) = false)
    ∧ fetchEntryUrl "http://example.com///" 42 = "http://example.com/api.php/entries/42" := by
  refine ⟨fun _ _ => rfl, fun base_url => ?_, by decide⟩
  unfold normalize_url
  exact endsWithSlash_rstrip _

/-- C10: every client request URL is built from
`normalize_url = rstrip-slashes ∘ replace-localhost`, uniformly across all
endpoints including the `share.php` webhook; a base URL not containing
`://localhost` is changed only by trailing-slash stripping, and a base URL
containing it has the substring rewritten to `://127.0.0.1`. -/
theorem c10_uniform_url_normalization :
    (∀ base_url : String,
        normalize_url base_url
          = String.mk (rstripSlashes (replaceSub localhostPat loopbackRep base_url.toList)))
    ∧ (∀ base_url : String, containsSub localhostPat base_url.toList = false →
        normalize_url base_url = String.mk (rstripSlashes base_url.toList))
    ∧ (∀ (b : String) (i : Int), fetchEntryUrl b i = normalize_url b ++ "/api.php/entries/" ++ toString i)
    ∧ (∀ (b : String) (i : Int), downloadFileUrl b i = normalize_url b ++ "/api.php/files/" ++ toString i)
    ∧ (∀ (b : String) (i : Int), downloadEntryFileUrl b i = normalize_url b ++ "/api.php/entries/" ++ toString i ++ "/file")
    ∧ (∀ b : String, listEntriesUrl b = normalize_url b ++ "/api.php/entries")
    ∧ (∀ (b : String) (i : Int), entryUrl b i = normalize_url b ++ "/api.php/entries/" ++ toString i)
    ∧ (∀ b : String, customFieldsUrl b = normalize_url b ++ "/api.php/custom-fields")
    ∧ (∀ (b n : String), customFieldUrl b n = normalize_url b ++ "/api.php/custom-fields/" ++ n)
    ∧ (∀ b : String, exportCustomFieldsUrl b = normalize_url b ++ "/api.php/custom-fields/export")
    ∧ (∀ b : String, importCustomFieldsUrl b = normalize_url b ++ "/api.php/custom-fields/import")
    ∧ (∀ (b f : String), fieldOptionsUrl b f = normalize_url b ++ "/api.php/field-options/" ++ f)
    ∧ (∀ (b f : String) (i : Int), fieldOptionUrl b f i = normalize_url b ++ "/api.php/field-options/" ++ f ++ "/" ++ toString i)
    ∧ (∀ (b : String) (i : Int), attachmentUrl b i = normalize_url b ++ "/api.php/attachments/" ++ toString i)
    ∧ (∀ b : String, authUrl b = normalize_url b ++ "/api.php/auth")
    ∧ (∀ b : String, fieldsUrl b = normalize_url b ++ "/api.php/fields")
    ∧ (∀ b : String, createEntryUrl b = normalize_url b ++ "/share.php")
    ∧ normalize_url "http://localhost/app/" = "http://127.0.0.1/app" := by
  refine ⟨fun _ => rfl, fun base_url h => ?_, fun _ _ => rfl, fun _ _ => rfl, fun _ _ => rfl,
    fun _ => rfl, fun _ _ => rfl, fun _ => rfl, fun _ _ => rfl, fun _ => rfl, fun _ => rfl,
    fun _ _ => rfl, fun _ _ _ => rfl, fun _ _ => rfl, fun _ => rfl, fun _ => rfl, fun _ => rfl,
    by decide⟩
  unfold normalize_url
  rw [replaceSub_not_contains _ _ _ h]

/-- Witness for C10: at a concrete base URL without `://localhost`,
normalization is exactly trailing-slash stripping. -/
theorem c10_witness :
    containsSub localhostPat "http://example.com/".toList = false
    ∧ normalize_url "http://example.com/" = String.mk (rstripSlashes "http://example.com/".toList) :=
  ⟨by decide, c10_uniform_url_normalization.2.1 "http://example.com/" (by decide)⟩

/-- The field `k` of object `d` is absent or bound to JSON null. -/
def nullOrMissing (d : List (String × JVal)) (k : String) : Prop :=
  getField d k = none ∨ getField d k = some JVal.null

/-- The defaulting mechanism `data.get(k) or dflt`: a missing or null field
coerces to the supplied default, whatever else the object contains. -/
theorem orDefault_nullOrMissing (d : List (String × JVal)) (k : String) (dflt : JVal)
    (h : nullOrMissing d k) : orDefault (getField d k) dflt = dflt := by
  rcases h with h | h <;> simp [h, orDefault, pyTruthy]

/-- Lookup in an extended object: the new binding shadows only its own key. -/
theorem getField_cons (k : String) (v : JVal) (d : List (String × JVal)) (k2 : String) :
    getField ((k, v) :: d) k2 = if k = k2 then some v else getField d k2 := by
  by_cases h : k = k2
  · subst h
    simp [getField, List.find?_cons_of_pos]
  · simp [getField, List.find?_cons_of_neg, h]

/-- Prepending a null binding for a key absent from `d` leaves every
`data.get(k) or dflt` unchanged. -/
theorem orDefault_cons_null (d : List (String × JVal)) (k : String)
    (h : getField d k = none) (k2 : String) (dflt : JVal) :
    orDefault (getField ((k, JVal.null) :: d) k2) dflt = orDefault (getField d k2) dflt := by
  rw [getField_cons]
  by_cases hk : k = k2
  · subst hk
    simp [h, orDefault, pyTruthy]
  · simp [hk]

/-- Componentwise defaults of `_parse_attachment` on an arbitrary object:
every missing-or-null field yields its default in the parsed record. -/
theorem parse_attachment_defaults (d : List (String × JVal)) (r : Attachment)
    (h : _parse_attachment (.obj d) = some r) :
    (nullOrMissing d "id" → r.id = 0)
    ∧ (nullOrMissing d "type" → r.type = "")
    ∧ (nullOrMissing d "body" → r.body = [])
    ∧ (nullOrMissing d "filename" → r.filename = "")
    ∧ (nullOrMissing d "file_size" → r.file_size = 0)
    ∧ (nullOrMissing d "file_url" → r.file_url = "") := by
  simp only [_parse_attachment, bind, Option.bind_eq_some, pure, Option.some.injEq] at h
  obtain ⟨i, hi, ty, hty, bd, hbd, fn, hfn, fsz, hfsz, fu, hfu, hr⟩ := h
  subst hr
  refine ⟨fun hk => ?_, fun hk => ?_, fun hk => ?_, fun hk => ?_, fun hk => ?_, fun hk => ?_⟩
  · rw [orDefault_nullOrMissing _ _ _ hk] at hi
    simpa [pyToInt] using hi.symm
  · rw [orDefault_nullOrMissing _ _ _ hk] at hty
    simpa [pyToStr] using hty.symm
  · rw [orDefault_nullOrMissing _ _ _ hk] at hbd
    simpa [pyToDict, List.mapM, List.mapM.loop] using hbd.symm
  · rw [orDefault_nullOrMissing _ _ _ hk] at hfn
    simpa [pyToStr] using hfn.symm
  · rw [orDefault_nullOrMissing _ _ _ hk] at hfsz
    simpa [pyToInt] using hfsz.symm
  · rw [orDefault_nullOrMissing _ _ _ hk] at hfu
    simpa [pyToStr] using hfu.symm

/-- Componentwise defaults of `_parse_entry` on an arbitrary object; the
`attachments` component is empty when the key is missing. -/
theorem parse_entry_defaults (d : List (String × JVal)) (r : Entry)
    (h : _parse_entry (.obj d) = some r) :
    (nullOrMissing d "id" → r.id = 0)
    ∧ (nullOrMissing d "type" → r.type = "")
    ∧ (nullOrMissing d "subject" → r.subject = "")
    ∧ (nullOrMissing d "body" → r.body = [])
    ∧ (nullOrMissing d "filename" → r.filename = "")
    ∧ (nullOrMissing d "file_size" → r.file_size = 0)
    ∧ (nullOrMissing d "file_url" → r.file_url = "")
    ∧ (getField d "attachments" = none → r.attachments = []) := by
  simp only [_parse_entry, bind, Option.bind_eq_some, pure, Option.some.injEq] at h
  obtain ⟨atts, hatts, i, hi, ty, hty, subj, hsubj, bd, hbd, fn, hfn, fsz, hfsz, fu, hfu, hr⟩ := h
  subst hr
  refine ⟨fun hk => ?_, fun hk => ?_, fun hk => ?_, fun hk => ?_, fun hk => ?_, fun hk => ?_,
    fun hk => ?_, fun hk => ?_⟩
  · rw [orDefault_nullOrMissing _ _ _ hk] at hi
    simpa [pyToInt] using hi.symm
  · rw [orDefault_nullOrMissing _ _ _ hk] at hty
    simpa [pyToStr] using hty.symm
  · rw [orDefault_nullOrMissing _ _ _ hk] at hsubj
    simpa [pyToStr] using hsubj.symm
  · rw [orDefault_nullOrMissing _ _ _ hk] at hbd
    simpa [pyToDict, List.mapM, List.mapM.loop] using hbd.symm
  · rw [orDefault_nullOrMissing _ _ _ hk] at hfn
    simpa [pyToStr] using hfn.symm
  · rw [orDefault_nullOrMissing _ _ _ hk] at hfsz
    simpa [pyToInt] using hfsz.symm
  · rw [orDefault_nullOrMissing _ _ _ hk] at hfu
    simpa [pyToStr] using hfu.symm
  · rw [hk] at hatts
    simpa [iterAttachments, List.mapM, List.mapM.loop] using hatts.symm

/-- Componentwise defaults of `_parse_entry_summary` on an arbitrary
object. -/
theorem parse_entry_summary_defaults (d : List (String × JVal)) (r : EntrySummary)
    (h : _parse_entry_summary (.obj d) = some r) :
    (nullOrMissing d "id" → r.id = 0)
    ∧ (nullOrMissing d "type" → r.type = "")
    ∧ (nullOrMissing d "subject" → r.subject = "")
    ∧ (nullOrMissing d "body" → r.body = "")
    ∧ (nullOrMissing d "filename" → r.filename = "")
    ∧ (nullOrMissing d "file_size" → r.file_size = 0)
    ∧ (nullOrMissing d "attachment_count" → r.attachment_count = 0)
    ∧ (nullOrMissing d "created_at" → r.created_at = "") := by
  simp only [_parse_entry_summary, bind, Option.bind_eq_some, pure, Option.some.injEq] at h
  obtain ⟨i, hi, ty, hty, subj, hsubj, bd, hbd, fn, hfn, fsz, hfsz, ac, hac, ca, hca, hr⟩ := h
  subst hr
  refine ⟨fun hk => ?_, fun hk => ?_, fun hk => ?_, fun hk => ?_, fun hk => ?_, fun hk => ?_,
    fun hk => ?_, fun hk => ?_⟩
  · rw [orDefault_nullOrMissing _ _ _ hk] at hi
    simpa [pyToInt] using hi.symm
  · rw [orDefault_nullOrMissing _ _ _ hk] at hty
    simpa [pyToStr] using hty.symm
  · rw [orDefault_nullOrMissing _ _ _ hk] at hsubj
    simpa [pyToStr] using hsubj.symm
  · rw [orDefault_nullOrMissing _ _ _ hk] at hbd
    simpa [pyToStr] using hbd.symm
  · rw [orDefault_nullOrMissing _ _ _ hk] at hfn
    simpa [pyToStr] using hfn.symm
  · rw [orDefault_nullOrMissing _ _ _ hk] at hfsz
    simpa [pyToInt] using hfsz.symm
  · rw [orDefault_nullOrMissing _ _ _ hk] at hac
    simpa [pyToInt] using hac.symm
  · rw [orDefault_nullOrMissing _ _ _ hk] at hca
    simpa [pyToStr] using hca.symm

/-- Componentwise defaults of `_parse_custom_field` on an arbitrary
object. -/
theorem parse_custom_field_defaults (d : List (String × JVal)) (r : CustomField)
    (h : _parse_custom_field (.obj d) = some r) :
    (nullOrMissing d "name" → r.name = "")
    ∧ (nullOrMissing d "description" → r.description = "")
    ∧ (nullOrMissing d "sort_order" → r.sort_order = 0)
    ∧ (nullOrMissing d "option_count" → r.option_count = 0)
    ∧ (nullOrMissing d "created_at" → r.created_at = "") := by
  simp only [_parse_custom_field, bind, Option.bind_eq_some, pure, Option.some.injEq] at h
  obtain ⟨nm, hnm, ds, hds, so, hso, oc, hoc, ca, hca, hr⟩ := h
  subst hr
  refine ⟨fun hk => ?_, fun hk => ?_, fun hk => ?_, fun hk => ?_, fun hk => ?_⟩
  · rw [orDefault_nullOrMissing _ _ _ hk] at hnm
    simpa [pyToStr] using hnm.symm
  · rw [orDefault_nullOrMissing _ _ _ hk] at hds
    simpa [pyToStr] using hds.symm
  · rw [orDefault_nullOrMissing _ _ _ hk] at hso
    simpa [pyToInt] using hso.symm
  · rw [orDefault_nullOrMissing _ _ _ hk] at hoc
    simpa [pyToInt] using hoc.symm
  · rw [orDefault_nullOrMissing _ _ _ hk] at hca
    simpa [pyToStr] using hca.symm

/-- Componentwise defaults of `_parse_field_option` on an arbitrary object;
a missing-or-null `field_name` falls back to the function argument. -/
theorem parse_field_option_defaults (d : List (String × JVal)) (fname : String)
    (r : FieldOption) (h : _parse_field_option (.obj d) fname = some r) :
    (nullOrMissing d "id" → r.id = 0)
    ∧ (nullOrMissing d "field_name" → r.field_name = fname)
    ∧ (nullOrMissing d "name" → r.name = "")
    ∧ (nullOrMissing d "created_at" → r.created_at = "")
    ∧ (nullOrMissing d "entry_count" → r.entry_count = 0) := by
  simp only [_parse_field_option, bind, Option.bind_eq_some, pure, Option.some.injEq] at h
  obtain ⟨i, hi, fn, hfn, nm, hnm, ca, hca, ec, hec, hr⟩ := h
  subst hr
  refine ⟨fun hk => ?_, fun hk => ?_, fun hk => ?_, fun hk => ?_, fun hk => ?_⟩
  · rw [orDefault_nullOrMissing _ _ _ hk] at hi
    simpa [pyToInt] using hi.symm
  · rw [orDefault_nullOrMissing _ _ _ hk] at hfn
    simpa [pyToStr] using hfn.symm
  · rw [orDefault_nullOrMissing _ _ _ hk] at hnm
    simpa [pyToStr] using hnm.symm
  · rw [orDefault_nullOrMissing _ _ _ hk] at hca
    simpa [pyToStr] using hca.symm
  · rw [orDefault_nullOrMissing _ _ _ hk] at hec
    simpa [pyToInt] using hec.symm

/-- Componentwise defaults of `_parse_exported_field` on an arbitrary object;
the `options` component is empty when the key is missing. -/
theorem parse_exported_field_defaults (d : List (String × JVal)) (r : ExportedField)
    (h : _parse_exported_field (.obj d) = some r) :
    (nullOrMissing d "name" → r.name = "")
    ∧ (nullOrMissing d "description" → r.description = "")
    ∧ (nullOrMissing d "sort_order" → r.sort_order = 0)
    ∧ (getField d "options" = none → r.options = []) := by
  simp only [_parse_exported_field, bind, Option.bind_eq_some, pure, Option.some.injEq] at h
  obtain ⟨opts, hopts, nm, hnm, ds, hds, so, hso, hr⟩ := h
  subst hr
  refine ⟨fun hk => ?_, fun hk => ?_, fun hk => ?_, fun hk => ?_⟩
  · rw [orDefault_nullOrMissing _ _ _ hk] at hnm
    simpa [pyToStr] using hnm.symm
  · rw [orDefault_nullOrMissing _ _ _ hk] at hds
    simpa [pyToStr] using hds.symm
  · rw [orDefault_nullOrMissing _ _ _ hk] at hso
    simpa [pyToInt] using hso.symm
  · rw [hk] at hopts
    simpa [iterOptions, List.mapM, List.mapM.loop] using hopts.symm

/-- Componentwise defaults of `_parse_field_descriptor` on an arbitrary
object. -/
theorem parse_field_descriptor_defaults (d : List (String × JVal)) (r : FieldDescriptor)
    (h : _parse_field_descriptor (.obj d) = some r) :
    (nullOrMissing d "name" → r.name = "")
    ∧ (nullOrMissing d "type" → r.type = "")
    ∧ (nullOrMissing d "description" → r.description = "")
    ∧ (nullOrMissing d "resource_path" → r.resource_path = "") := by
  simp only [_parse_field_descriptor, bind, Option.bind_eq_some, pure, Option.some.injEq] at h
  obtain ⟨nm, hnm, ty, hty, ds, hds, rp, hrp, hr⟩ := h
  subst hr
  refine ⟨fun hk => ?_, fun hk => ?_, fun hk => ?_, fun hk => ?_⟩
  · rw [orDefault_nullOrMissing _ _ _ hk] at hnm
    simpa [pyToStr] using hnm.symm
  · rw [orDefault_nullOrMissing _ _ _ hk] at hty
    simpa [pyToStr] using hty.symm
  · rw [orDefault_nullOrMissing _ _ _ hk] at hds
    simpa [pyToStr] using hds.symm
  · rw [orDefault_nullOrMissing _ _ _ hk] at hrp
    simpa [pyToStr] using hrp.symm

/-- A null field behaves exactly as a missing one for `_parse_attachment`. -/
theorem parse_attachment_null_as_missing (d : List (String × JVal)) (k : String)
    (h : getField d k = none) :
    _parse_attachment (.obj ((k, JVal.null) :: d)) = _parse_attachment (.obj d) := by
  simp only [_parse_attachment, orDefault_cons_null d k h]

/-- A null field behaves exactly as a missing one for `_parse_entry` — for
every field other than the sequence field `attachments`. -/
theorem parse_entry_null_as_missing (d : List (String × JVal)) (k : String)
    (h : getField d k = none) (hk : k ≠ "attachments") :
    _parse_entry (.obj ((k, JVal.null) :: d)) = _parse_entry (.obj d) := by
  have hatt : getField ((k, JVal.null) :: d) "attachments" = getField d "attachments" := by
    rw [getField_cons]
    simp [hk]
  simp only [_parse_entry, orDefault_cons_null d k h, hatt]

/-- A null field behaves exactly as a missing one for
`_parse_entry_summary`. -/
theorem parse_entry_summary_null_as_missing (d : List (String × JVal)) (k : String)
    (h : getField d k = none) :
    _parse_entry_summary (.obj ((k, JVal.null) :: d)) = _parse_entry_summary (.obj d) := by
  simp only [_parse_entry_summary, orDefault_cons_null d k h]

/-- A null field behaves exactly as a missing one for
`_parse_custom_field`. -/
theorem parse_custom_field_null_as_missing (d : List (String × JVal)) (k : String)
    (h : getField d k = none) :
    _parse_custom_field (.obj ((k, JVal.null) :: d)) = _parse_custom_field (.obj d) := by
  simp only [_parse_custom_field, orDefault_cons_null d k h]

/-- A null field behaves exactly as a missing one for
`_parse_field_option`. -/
theorem parse_field_option_null_as_missing (d : List (String × JVal)) (k : String)
    (fname : String) (h : getField d k = none) :
    _parse_field_option (.obj ((k, JVal.null) :: d)) fname
      = _parse_field_option (.obj d) fname := by
  simp only [_parse_field_option, orDefault_cons_null d k h]

/-- A null field behaves exactly as a missing one for
`_parse_exported_field` — for every field other than the sequence field
`options`. -/
theorem parse_exported_field_null_as_missing (d : List (String × JVal)) (k : String)
    (h : getField d k = none) (hk : k ≠ "options") :
    _parse_exported_field (.obj ((k, JVal.null) :: d)) = _parse_exported_field (.obj d) := by
  have hopt : getField ((k, JVal.null) :: d) "options" = getField d "options" := by
    rw [getField_cons]
    simp [hk]
  simp only [_parse_exported_field, orDefault_cons_null d k h, hopt]

/-- A null field behaves exactly as a missing one for
`_parse_field_descriptor`. -/
theorem parse_field_descriptor_null_as_missing (d : List (String × JVal)) (k : String)
    (h : getField d k = none) :
    _parse_field_descriptor (.obj ((k, JVal.null) :: d)) = _parse_field_descriptor (.obj d) := by
  simp only [_parse_field_descriptor, orDefault_cons_null d k h]

/-- An explicitly null `attachments` field makes `_parse_entry` raise,
whatever else the object contains. -/
theorem parse_entry_null_attachments (d : List (String × JVal))
    (h : getField d "attachments" = some JVal.null) : _parse_entry (.obj d) = none := by
  simp [_parse_entry, h, iterAttachments]

/-- An explicitly null `options` field makes `_parse_exported_field` raise,
whatever else the object contains. -/
theorem parse_exported_field_null_options (d : List (String × JVal))
    (h : getField d "options" = some JVal.null) : _parse_exported_field (.obj d) = none := by
  simp [_parse_exported_field, h, iterOptions]

/-- C2 (amended): for every JSON object handed to a record parser — mixed
objects included — each scalar or mapping field that is missing or null
contributes its type-appropriate default (0, empty string, empty mapping) to
the parsed record; a null field behaves exactly like a missing one (so
parsing never raises because a field is null rather than absent), for every
field except the sequence fields; the all-missing object parses to the
all-defaults record for every parser; but the sequence fields
(`attachments` in `_parse_entry`, `options` in `_parse_exported_field`)
default to the empty sequence only when the key is missing — an explicitly
null value raises instead of defaulting. -/
theorem c2_parser_defaults :
    (∀ (d : List (String × JVal)) (k : String) (dflt : JVal), nullOrMissing d k →
        orDefault (getField d k) dflt = dflt)
    ∧ (∀ (d : List (String × JVal)) (r : Attachment), _parse_attachment (.obj d) = some r →
        (nullOrMissing d "id" → r.id = 0)
        ∧ (nullOrMissing d "type" → r.type = "")
        ∧ (nullOrMissing d "body" → r.body = [])
        ∧ (nullOrMissing d "filename" → r.filename = "")
        ∧ (nullOrMissing d "file_size" → r.file_size = 0)
        ∧ (nullOrMissing d "file_url" → r.file_url = ""))
    ∧ (∀ (d : List (String × JVal)) (r : Entry), _parse_entry (.obj d) = some r →
        (nullOrMissing d "id" → r.id = 0)
        ∧ (nullOrMissing d "type" → r.type = "")
        ∧ (nullOrMissing d "subject" → r.subject = "")
        ∧ (nullOrMissing d "body" → r.body = [])
        ∧ (nullOrMissing d "filename" → r.filename = "")
        ∧ (nullOrMissing d "file_size" → r.file_size = 0)
        ∧ (nullOrMissing d "file_url" → r.file_url = "")
        ∧ (getField d "attachments" = none → r.attachments = []))
    ∧ (∀ (d : List (String × JVal)) (r : EntrySummary), _parse_entry_summary (.obj d) = some r →
        (nullOrMissing d "id" → r.id = 0)
        ∧ (nullOrMissing d "type" → r.type = "")
        ∧ (nullOrMissing d "subject" → r.subject = "")
        ∧ (nullOrMissing d "body" → r.body = "")
        ∧ (nullOrMissing d "filename" → r.filename = "")
        ∧ (nullOrMissing d "file_size" → r.file_size = 0)
        ∧ (nullOrMissing d "attachment_count" → r.attachment_count = 0)
        ∧ (nullOrMissing d "created_at" → r.created_at = ""))
    ∧ (∀ (d : List (String × JVal)) (r : CustomField), _parse_custom_field (.obj d) = some r →
        (nullOrMissing d "name" → r.name = "")
        ∧ (nullOrMissing d "description" → r.description = "")
        ∧ (nullOrMissing d "sort_order" → r.sort_order = 0)
        ∧ (nullOrMissing d "option_count" → r.option_count = 0)
        ∧ (nullOrMissing d "created_at" → r.created_at = ""))
    ∧ (∀ (d : List (String × JVal)) (fname : String) (r : FieldOption),
        _parse_field_option (.obj d) fname = some r →
        (nullOrMissing d "id" → r.id = 0)
        ∧ (nullOrMissing d "field_name" → r.field_name = fname)
        ∧ (nullOrMissing d "name" → r.name = "")
        ∧ (nullOrMissing d "created_at" → r.created_at = "")
        ∧ (nullOrMissing d "entry_count" → r.entry_count = 0))
    ∧ (∀ (d : List (String × JVal)) (r : ExportedField), _parse_exported_field (.obj d) = some r →
        (nullOrMissing d "name" → r.name = "")
        ∧ (nullOrMissing d "description" → r.description = "")
        ∧ (nullOrMissing d "sort_order" → r.sort_order = 0)
        ∧ (getField d "options" = none → r.options = []))
    ∧ (∀ (d : List (String × JVal)) (r : FieldDescriptor),
        _parse_field_descriptor (.obj d) = some r →
        (nullOrMissing d "name" → r.name = "")
        ∧ (nullOrMissing d "type" → r.type = "")
        ∧ (nullOrMissing d "description" → r.description = "")
        ∧ (nullOrMissing d "resource_path" → r.resource_path = ""))
    ∧ (∀ (d : List (String × JVal)) (k : String), getField d k = none →
        _parse_attachment (.obj ((k, JVal.null) :: d)) = _parse_attachment (.obj d))
    ∧ (∀ (d : List (String × JVal)) (k : String), getField d k = none → k ≠ "attachments" →
        _parse_entry (.obj ((k, JVal.null) :: d)) = _parse_entry (.obj d))
    ∧ (∀ (d : List (String × JVal)) (k : String), getField d k = none →
        _parse_entry_summary (.obj ((k, JVal.null) :: d)) = _parse_entry_summary (.obj d))
    ∧ (∀ (d : List (String × JVal)) (k : String), getField d k = none →
        _parse_custom_field (.obj ((k, JVal.null) :: d)) = _parse_custom_field (.obj d))
    ∧ (∀ (d : List (String × JVal)) (k fname : String), getField d k = none →
        _parse_field_option (.obj ((k, JVal.null) :: d)) fname
          = _parse_field_option (.obj d) fname)
    ∧ (∀ (d : List (String × JVal)) (k : String), getField d k = none → k ≠ "options" →
        _parse_exported_field (.obj ((k, JVal.null) :: d)) = _parse_exported_field (.obj d))
    ∧ (∀ (d : List (String × JVal)) (k : String), getField d k = none →
        _parse_field_descriptor (.obj ((k, JVal.null) :: d)) = _parse_field_descriptor (.obj d))
    ∧ _parse_attachment (.obj []) = some ⟨0, "", [], "", 0, ""⟩
    ∧ _parse_entry (.obj []) = some ⟨0, "", "", [], "", 0, "", []⟩
    ∧ _parse_entry_summary (.obj []) = some ⟨0, "", "", "", "", 0, 0, ""⟩
    ∧ _parse_custom_field (.obj []) = some ⟨"", "", 0, 0, ""⟩
    ∧ (∀ fname, _parse_field_option (.obj []) fname = some ⟨0, fname, "", "", 0⟩)
    ∧ _parse_exported_field (.obj []) = some ⟨"", "", 0, []⟩
    ∧ _parse_field_descriptor (.obj []) = some ⟨"", "", "", ""⟩
    ∧ (∀ d : List (String × JVal), getField d "attachments" = some JVal.null →
        _parse_entry (.obj d) = none)
    ∧ (∀ d : List (String × JVal), getField d "options" = some JVal.null →
        _parse_exported_field (.obj d) = none) :=
  ⟨orDefault_nullOrMissing,
   parse_attachment_defaults,
   parse_entry_defaults,
   parse_entry_summary_defaults,
   parse_custom_field_defaults,
   parse_field_option_defaults,
   parse_exported_field_defaults,
   parse_field_descriptor_defaults,
   parse_attachment_null_as_missing,
   parse_entry_null_as_missing,
   parse_entry_summary_null_as_missing,
   parse_custom_field_null_as_missing,
   fun d k fname h => parse_field_option_null_as_missing d k fname h,
   parse_exported_field_null_as_missing,
   parse_field_descriptor_null_as_missing,
   rfl, rfl, rfl, rfl, fun _ => rfl, rfl, rfl,
   parse_entry_null_attachments,
   parse_exported_field_null_options⟩

/-- Counterexample to C2 as stated: an entry JSON object whose
`"attachments"` field is explicitly null does not parse to an entry with an
empty attachments sequence — iterating `None` raises, modelled as `none`. -/
theorem c2_counterexample :
    _parse_entry (JVal.obj [("attachments", JVal.null)]) = none := rfl

/-- Witness for C2 (amended) at a mixed concrete object: a present `id` is
kept while the null `subject` and missing `attachments` default. -/
theorem c2_witness :
    _parse_entry (JVal.obj [("id", JVal.num 5), ("subject", JVal.null)])
      = some ⟨5, "", "", [], "", 0, "", []⟩
    ∧ (⟨5, "", "", [], "", 0, "", []⟩ : Entry).subject = ""
    ∧ (⟨5, "", "", [], "", 0, "", []⟩ : Entry).attachments = [] := by
  refine ⟨rfl, ?_, ?_⟩
  · exact (c2_parser_defaults.2.2.1 [("id", JVal.num 5), ("subject", JVal.null)]
      ⟨5, "", "", [], "", 0, "", []⟩ rfl).2.2.1 (Or.inr rfl)
  · exact (c2_parser_defaults.2.2.1 [("id", JVal.num 5), ("subject", JVal.null)]
      ⟨5, "", "", [], "", 0, "", []⟩ rfl).2.2.2.2.2.2.2 rfl

/-- The attachment loop only ever appends to its accumulators. -/
theorem processAttachments_acc (env : Nat → Except String Int) (entry_dir : String) :
    ∀ (l : List Attachment) (i : Nat) (ds : List DownloadedFile) (fs : List FailedDownload),
      ∃ ds' fs', processAttachments env entry_dir i l ds fs = (ds ++ ds', fs ++ fs') := by
  intro l
  induction l with
  | nil => intro i ds fs; exact ⟨[], [], by simp [processAttachments]⟩
  | cons att rest ih =>
    intro i ds fs
    by_cases hc : isFileCandidate att = true
    · by_cases hu : (att.file_url == "") = true
      · obtain ⟨ds', fs', hrec⟩ :=
          ih (i + 1) ds (fs ++ [⟨att.id, att.filename, "File not available on server"⟩])
        refine ⟨ds', ⟨att.id, att.filename, "File not available on server"⟩ :: fs', ?_⟩
        simp [processAttachments, hc, hu, hrec]
      · cases hdf : download_file (env i) att.id att.filename entry_dir with
        | ok df =>
          obtain ⟨ds', fs', hrec⟩ := ih (i + 1) (ds ++ [df]) fs
          refine ⟨df :: ds', fs', ?_⟩
          simp [processAttachments, hc, hu, hdf, hrec]
        | error e =>
          obtain ⟨ds', fs', hrec⟩ := ih (i + 1) ds (fs ++ [⟨att.id, att.filename, e⟩])
          refine ⟨ds', ⟨att.id, att.filename, e⟩ :: fs', ?_⟩
          simp [processAttachments, hc, hu, hdf, hrec]
    · obtain ⟨ds', fs', hrec⟩ := ih (i + 1) ds fs
      exact ⟨ds', fs', by simp [processAttachments, hc, hrec]⟩

/-- Failures already accumulated survive the rest of the loop. -/
theorem processAttachments_fs_mono (env : Nat → Except String Int) (entry_dir : String)
    (l : List Attachment) (i : Nat) (ds : List DownloadedFile) (fs : List FailedDownload)
    (x : FailedDownload) (hx : x ∈ fs) :
    x ∈ (processAttachments env entry_dir i l ds fs).2 := by
  obtain ⟨ds', fs', h⟩ := processAttachments_acc env entry_dir l i ds fs
  rw [h]
  exact List.mem_append_left _ hx

/-- Downloads already accumulated survive the rest of the loop, in place. -/
theorem processAttachments_ds_acc (env : Nat → Except String Int) (entry_dir : String)
    (l : List Attachment) (i : Nat) (ds : List DownloadedFile) (fs : List FailedDownload) :
    ∃ ds', (processAttachments env entry_dir i l ds fs).1 = ds ++ ds' := by
  obtain ⟨ds', fs', h⟩ := processAttachments_acc env entry_dir l i ds fs
  exact ⟨ds', by rw [h]⟩

/-- One loop iteration reduces to the loop on the tail with some extended
accumulators. -/
theorem processAttachments_cons_step (env : Nat → Except String Int) (entry_dir : String)
    (att : Attachment) (rest : List Attachment) (i : Nat)
    (ds : List DownloadedFile) (fs : List FailedDownload) :
    ∃ ds1 fs1,
      processAttachments env entry_dir i (att :: rest) ds fs
        = processAttachments env entry_dir (i + 1) rest ds1 fs1 := by
  by_cases hc : isFileCandidate att = true
  · by_cases hu : (att.file_url == "") = true
    · exact ⟨ds, fs ++ [⟨att.id, att.filename, "File not available on server"⟩],
        by simp [processAttachments, hc, hu]⟩
    · cases hdf : download_file (env i) att.id att.filename entry_dir with
      | ok df => exact ⟨ds ++ [df], fs, by simp [processAttachments, hc, hu, hdf]⟩
      | error e => exact ⟨ds, fs ++ [⟨att.id, att.filename, e⟩],
          by simp [processAttachments, hc, hu, hdf]⟩
  · exact ⟨ds, fs, by simp [processAttachments, hc]⟩

/-- Loop accounting: the final accumulator sizes grow by exactly the number
of candidate attachments (`type == "file"` with a non-empty filename). -/
theorem processAttachments_length (env : Nat → Except String Int) (entry_dir : String) :
    ∀ (l : List Attachment) (i : Nat) (ds : List DownloadedFile) (fs : List FailedDownload),
      (processAttachments env entry_dir i l ds fs).1.length
        + (processAttachments env entry_dir i l ds fs).2.length
      = ds.length + fs.length + l.countP isFileCandidate := by
  intro l
  induction l with
  | nil => intro i ds fs; simp [processAttachments]
  | cons att rest ih =>
    intro i ds fs
    by_cases hc : isFileCandidate att = true
    · by_cases hu : (att.file_url == "") = true
      · simp only [processAttachments, hc, if_true, hu]
        rw [ih]
        simp [List.countP_cons, hc]
        omega
      · cases hdf : download_file (env i) att.id att.filename entry_dir with
        | ok df =>
          simp only [processAttachments, hc, if_true, hu, Bool.false_eq_true, if_false, hdf]
          rw [ih]
          simp [List.countP_cons, hc]
          omega
        | error e =>
          simp only [processAttachments, hc, if_true, hu, Bool.false_eq_true, if_false, hdf]
          rw [ih]
          simp [List.countP_cons, hc]
          omega
    · simp only [processAttachments, hc, Bool.false_eq_true, if_false]
      rw [ih]
      simp [List.countP_cons, hc]

/-- Every candidate attachment without a file URL contributes its fixed
`"File not available on server"` failure, for every download environment. -/
theorem processAttachments_noUrl_mem (env : Nat → Except String Int) (entry_dir : String) :
    ∀ (l : List Attachment) (i : Nat) (ds : List DownloadedFile) (fs : List FailedDownload)
      (att : Attachment), att ∈ l → isFileCandidate att = true → att.file_url = "" →
      (⟨att.id, att.filename, "File not available on server"⟩ : FailedDownload)
        ∈ (processAttachments env entry_dir i l ds fs).2 := by
  intro l
  induction l with
  | nil => intro i ds fs att h; simp at h
  | cons a rest ih =>
    intro i ds fs att hmem hc hu
    rcases List.mem_cons.mp hmem with rfl | hmem'
    · have hu' : (att.file_url == "") = true := by simp [hu]
      simp only [processAttachments, hc, if_true, hu']
      exact processAttachments_fs_mono env entry_dir rest (i + 1) ds _ _
        (List.mem_append_right _ (List.mem_singleton.mpr rfl))
    · obtain ⟨ds1, fs1, hstep⟩ := processAttachments_cons_step env entry_dir a rest i ds fs
      rw [hstep]
      exact ih (i + 1) ds1 fs1 att hmem' hc hu

/-- Every candidate attachment with a file URL whose download attempt fails
contributes a failure carrying the raised error's message verbatim. -/
theorem processAttachments_err_mem (env : Nat → Except String Int) (entry_dir : String) :
    ∀ (l : List Attachment) (i : Nat) (ds : List DownloadedFile) (fs : List FailedDownload)
      (j : Nat) (att : Attachment) (e : String), l[j]? = some att →
      isFileCandidate att = true → att.file_url ≠ "" → env (i + j) = .error e →
      (⟨att.id, att.filename, e⟩ : FailedDownload)
        ∈ (processAttachments env entry_dir i l ds fs).2 := by
  intro l
  induction l with
  | nil => intro i ds fs j att e h; simp at h
  | cons a rest ih =>
    intro i ds fs j att e hj hc hu henv
    cases j with
    | zero =>
      have ha : a = att := by simpa using hj
      subst ha
      have hu' : (a.file_url == "") = false := by simpa using hu
      have henv' : env i = .error e := by simpa using henv
      simp only [processAttachments, hc, if_true, hu', Bool.false_eq_true, if_false,
        download_file, henv', Except.map]
      exact processAttachments_fs_mono env entry_dir rest (i + 1) ds _ _
        (List.mem_append_right _ (List.mem_singleton.mpr rfl))
    | succ j' =>
      have hj' : rest[j']? = some att := by simpa using hj
      have henv' : env ((i + 1) + j') = .error e := by
        have : (i + 1) + j' = i + (j' + 1) := by omega
        rw [this]; exact henv
      obtain ⟨ds1, fs1, hstep⟩ := processAttachments_cons_step env entry_dir a rest i ds fs
      rw [hstep]
      exact ih (i + 1) ds1 fs1 j' att e hj' hc hu henv'

/-- Accounting for the entry-level download step. -/
theorem entryLevelStep_length (outcome : Except String Int) (entry : Entry) (entry_dir : String) :
    (entryLevelStep outcome entry entry_dir).1.length
      + (entryLevelStep outcome entry entry_dir).2.length
    = if entry.file_url ≠ "" ∧ entry.filename ≠ "" then 1 else 0 := by
  unfold entryLevelStep
  by_cases hef : entry.file_url ≠ "" ∧ entry.filename ≠ ""
  · rw [if_pos hef, if_pos hef]
    cases outcome with
    | ok n => simp [download_entry_file, Except.map]
    | error e => simp [download_entry_file, Except.map]
  · rw [if_neg hef, if_neg hef]
    rfl

/-- C1 (amended): `fetch_entry_with_files` succeeds for every fetched entry
and every download environment, with
`len(downloaded_files) + len(failed_downloads)` equal to the number of
downloadable candidates — the entry-level file when both its URL and filename
are non-empty, plus each `"file"`-type attachment with a non-empty filename —
and every candidate attachment without a file URL appears in
`failed_downloads` with the fixed `"File not available on server"` error
(which contains "not available"), independently of the download
environment (no download is attempted for it). -/
theorem c1_download_accounting (env : DownloadEnv) (entry : Entry)
    (download_dir : String) (entry_id : Int) :
    ∃ res : EntryResult,
      fetch_entry_with_files env (.ok entry) download_dir entry_id = .ok res
      ∧ res.downloaded_files.length + res.failed_downloads.length
          = (if entry.file_url ≠ "" ∧ entry.filename ≠ "" then 1 else 0)
            + entry.attachments.countP isFileCandidate
      ∧ (∀ att ∈ entry.attachments, isFileCandidate att = true → att.file_url = "" →
          (⟨att.id, att.filename, "File not available on server"⟩ : FailedDownload)
            ∈ res.failed_downloads) := by
  refine ⟨⟨entry,
    (processAttachments env.attFile (joinPath download_dir (toString entry_id)) 0
      entry.attachments
      (entryLevelStep env.entryFile entry (joinPath download_dir (toString entry_id))).1
      (entryLevelStep env.entryFile entry (joinPath download_dir (toString entry_id))).2).1,
    (processAttachments env.attFile (joinPath download_dir (toString entry_id)) 0
      entry.attachments
      (entryLevelStep env.entryFile entry (joinPath download_dir (toString entry_id))).1
      (entryLevelStep env.entryFile entry (joinPath download_dir (toString entry_id))).2).2,
    joinPath (joinPath download_dir (toString entry_id)) "content.md"⟩, rfl, ?_, ?_⟩
  · rw [processAttachments_length,
      ← entryLevelStep_length env.entryFile entry (joinPath download_dir (toString entry_id))]
  · intro att hmem hc hu
    exact processAttachments_noUrl_mem env.attFile _ entry.attachments 0 _ _ att hmem hc hu

/-- The download environment used by concrete counterexamples (its outcomes
are never consulted there). -/
def envCx : DownloadEnv := ⟨Except.error "unused", fun _ => Except.error "unused"⟩

/-- Counterexample entry for C1: one `"file"`-type attachment that has a file
URL but an empty filename. -/
def entryCx : Entry :=
  ⟨1, "share", "s", [], "", 0, "", [⟨7, "file", [], "", 0, "http://x/f"⟩]⟩

/-- Counterexample to C1 as stated: `entryCx` has N = 1 `"file"`-type
attachments with a file URL and M = 0 without, yet
`len(downloaded_files) + len(failed_downloads) = 0 ≠ N + M`: the code also
requires a non-empty filename before counting an attachment as a download
candidate. -/
theorem c1_counterexample :
    entryCx.attachments.countP (fun a => a.type == "file" && a.file_url != "") = 1
    ∧ entryCx.attachments.countP (fun a => a.type == "file" && a.file_url == "") = 0
    ∧ ∃ res, fetch_entry_with_files envCx (.ok entryCx) "downloads" 1 = .ok res
        ∧ res.downloaded_files.length + res.failed_downloads.length = 0 :=
  ⟨rfl, rfl, ⟨_, rfl, rfl⟩⟩

/-- Witness entry for C1 (amended): one candidate attachment without a file
URL. -/
def entryW : Entry :=
  ⟨2, "share", "s", [], "", 0, "", [⟨9, "file", [], "doc.pdf", 0, ""⟩]⟩

/-- Witness for C1 (amended) at `entryW`. -/
theorem c1_witness :
    ∃ res, fetch_entry_with_files envCx (.ok entryW) "downloads" 2 = .ok res
      ∧ res.downloaded_files.length + res.failed_downloads.length = 1
      ∧ (⟨9, "doc.pdf", "File not available on server"⟩ : FailedDownload)
          ∈ res.failed_downloads := by
  obtain ⟨res, h1, h2, h3⟩ := c1_download_accounting envCx entryW "downloads" 2
  refine ⟨res, h1, ?_, ?_⟩
  · rw [h2]; decide
  · exact h3 ⟨9, "file", [], "doc.pdf", 0, ""⟩ (List.mem_singleton.mpr rfl) (by decide) rfl

/-- C3: an error fetching the entry itself propagates untouched; once the
entry is fetched the orchestration always succeeds, preserving the entry,
keeping every earlier successful download in the result, and demoting each
failing download (entry-level or attachment) to a `FailedDownload` carrying
the raised error's message verbatim. -/
theorem c3_download_error_isolation (env : DownloadEnv) (download_dir : String)
    (entry_id : Int) :
    (∀ e, fetch_entry_with_files env (.error e) download_dir entry_id = .error e)
    ∧ ∀ entry : Entry, ∃ res : EntryResult,
        fetch_entry_with_files env (.ok entry) download_dir entry_id = .ok res
        ∧ res.entry = entry
        ∧ (∀ e, entry.file_url ≠ "" → entry.filename ≠ "" → env.entryFile = .error e →
            (⟨entry.id, entry.filename, e⟩ : FailedDownload) ∈ res.failed_downloads)
        ∧ (∀ n, entry.file_url ≠ "" → entry.filename ≠ "" → env.entryFile = .ok n →
            ∃ rest, res.downloaded_files
              = ⟨entry.id, entry.filename,
                  joinPath (joinPath download_dir (toString entry_id)) entry.filename, n⟩ :: rest)
        ∧ (∀ (j : Nat) (att : Attachment) (e : String),
            entry.attachments[j]? = some att → att.type = "file" → att.filename ≠ "" →
            att.file_url ≠ "" → env.attFile j = .error e →
            (⟨att.id, att.filename, e⟩ : FailedDownload) ∈ res.failed_downloads) := by
  refine ⟨fun e => rfl, fun entry => ⟨⟨entry,
    (processAttachments env.attFile (joinPath download_dir (toString entry_id)) 0
      entry.attachments
      (entryLevelStep env.entryFile entry (joinPath download_dir (toString entry_id))).1
      (entryLevelStep env.entryFile entry (joinPath download_dir (toString entry_id))).2).1,
    (processAttachments env.attFile (joinPath download_dir (toString entry_id)) 0
      entry.attachments
      (entryLevelStep env.entryFile entry (joinPath download_dir (toString entry_id))).1
      (entryLevelStep env.entryFile entry (joinPath download_dir (toString entry_id))).2).2,
    joinPath (joinPath download_dir (toString entry_id)) "content.md"⟩, rfl, rfl, ?_, ?_, ?_⟩⟩
  · intro e hf hn henv
    have hfirst : entryLevelStep env.entryFile entry (joinPath download_dir (toString entry_id))
        = ([], [⟨entry.id, entry.filename, e⟩]) := by
      unfold entryLevelStep
      rw [if_pos ⟨hf, hn⟩]
      simp [download_entry_file, henv, Except.map]
    rw [hfirst]
    exact processAttachments_fs_mono env.attFile _ entry.attachments 0 _ _ _
      (List.mem_singleton.mpr rfl)
  · intro n hf hn henv
    have hfirst : entryLevelStep env.entryFile entry (joinPath download_dir (toString entry_id))
        = ([⟨entry.id, entry.filename,
            joinPath (joinPath download_dir (toString entry_id)) entry.filename, n⟩], []) := by
      unfold entryLevelStep
      rw [if_pos ⟨hf, hn⟩]
      simp [download_entry_file, henv, Except.map, joinPath]
    rw [hfirst]
    obtain ⟨ds', hds⟩ := processAttachments_ds_acc env.attFile
      (joinPath download_dir (toString entry_id)) entry.attachments 0
      [⟨entry.id, entry.filename,
        joinPath (joinPath download_dir (toString entry_id)) entry.filename, n⟩] []
    exact ⟨ds', by rw [hds]; rfl⟩
  · intro j att e hj ht hn hu henv
    have hc : isFileCandidate att = true := by simp [isFileCandidate, ht, hn]
    exact processAttachments_err_mem env.attFile _ entry.attachments 0 _ _ j att e hj hc hu
      (by simpa using henv)

/-- The download environment for the C3 witness: the entry-level download
succeeds with 5 bytes, the attachment download raises "boom". -/
def envW3 : DownloadEnv := ⟨Except.ok 5, fun _ => Except.error "boom"⟩

/-- Witness entry for C3: an entry-level file plus one downloadable
attachment whose download will fail. -/
def entryW3 : Entry :=
  ⟨5, "share", "s", [], "cover.png", 3, "http://x/e", [⟨7, "file", [], "a.png", 0, "http://x/a"⟩]⟩

/-- Witness for C3 at `entryW3` under `envW3`. -/
theorem c3_witness :
    fetch_entry_with_files envW3 (.error "fetch failed") "downloads" 5 = .error "fetch failed"
    ∧ ∃ res, fetch_entry_with_files envW3 (.ok entryW3) "downloads" 5 = .ok res
        ∧ res.entry = entryW3
        ∧ (∃ rest, res.downloaded_files = ⟨5, "cover.png", "downloads/5/cover.png", 5⟩ :: rest)
        ∧ (⟨7, "a.png", "boom"⟩ : FailedDownload) ∈ res.failed_downloads := by
  obtain ⟨hprop, hok⟩ := c3_download_error_isolation envW3 "downloads" 5
  obtain ⟨res, h1, h2, _, h4, h5⟩ := hok entryW3
  refine ⟨hprop "fetch failed", res, h1, h2, ?_, ?_⟩
  · exact h4 5 (by decide) (by decide) rfl
  · exact h5 0 ⟨7, "file", [], "a.png", 0, "http://x/a"⟩ "boom" rfl rfl (by decide) (by decide) rfl

/-- The concrete entry of the specification's markdown example. -/
def exampleResult : EntryResult :=
  ⟨⟨1, "share", "My Share", [("content", "Hello world")], "", 0, "",
    [⟨1, "text", [("content", "A comment")], "", 0, ""⟩,
     ⟨2, "file", [], "photo.png", 0, "http://x/p"⟩]⟩, [], [], ""⟩

/-- C4: the markdown rendering starts with a level-1 heading built from the
subject; a `"file"`-type attachment whose filename is not an image
contributes no markdown output; the image-extension test is by final
extension, case-insensitively; and the specification's concrete example
renders exactly as claimed. -/
theorem c4_markdown_generation :
    (∀ r : EntryResult, ∃ rest,
        r.generate_content_markdown = "# " ++ r.entry.subject ++ "\n" ++ rest)
    ∧ (∀ (entry : Entry) (pre post : List Attachment) (att : Attachment)
        (ds : List DownloadedFile) (fs : List FailedDownload) (cp : String),
        att.type = "file" → _is_image_file att.filename = false →
        EntryResult.generate_content_markdown
            ⟨{entry with attachments := pre ++ att :: post}, ds, fs, cp⟩
          = EntryResult.generate_content_markdown
              ⟨{entry with attachments := pre ++ post}, ds, fs, cp⟩)
    ∧ _is_image_file "photo.png" = true
    ∧ _is_image_file "PHOTO.JPG" = true
    ∧ _is_image_file "archive.tar.gz" = false
    ∧ _is_image_file "noext" = false
    ∧ EntryResult.generate_content_markdown exampleResult
        = "# My Share\n\nHello world\n\nA comment\n\n![photo.png](photo.png)\n"
    ∧ containsSub "# My Share".toList
        (EntryResult.generate_content_markdown exampleResult).toList = true
    ∧ containsSub "Hello world".toList
        (EntryResult.generate_content_markdown exampleResult).toList = true
    ∧ containsSub "A comment".toList
        (EntryResult.generate_content_markdown exampleResult).toList = true
    ∧ containsSub "![photo.png](photo.png)".toList
        (EntryResult.generate_content_markdown exampleResult).toList = true := by
  refine ⟨fun r => ⟨_, rfl⟩, ?_, by decide, by decide, by decide, by decide,
    by decide, by decide, by decide, by decide, by decide⟩
  intro entry pre post att ds fs cp ht himg
  have hlines : attachmentMarkdownLines att = [] := by
    simp [attachmentMarkdownLines, ht, himg]
  simp [EntryResult.generate_content_markdown, List.foldl_append, hlines]

/-- Witness for C4: a non-image `"file"` attachment leaves the markdown
unchanged at a concrete entry. -/
theorem c4_witness :
    EntryResult.generate_content_markdown
        ⟨⟨1, "share", "My Share", [], "", 0, "", [⟨3, "file", [], "notes.pdf", 0, "u"⟩]⟩,
          [], [], ""⟩
      = EntryResult.generate_content_markdown
          ⟨⟨1, "share", "My Share", [], "", 0, "", []⟩, [], [], ""⟩ := by
  have h := c4_markdown_generation.2.1 ⟨1, "share", "My Share", [], "", 0, "", []⟩
    [] [] ⟨3, "file", [], "notes.pdf", 0, "u"⟩ [] [] "" rfl (by decide)
  simpa using h

/-- The behaviour of a tool output at the `try/except` boundary for the
common single-client-call tool shape: a resolve failure or client failure is
rendered as `"Error: {message}"` with the message verbatim, a client success
as the result's rendering. -/
def boundarySpec {α : Type} (settings : Settings) (base_url : String)
    (client : String → Except String α) (render : α → String) (output : String) : Prop :=
  (∃ e, _resolve_base_url base_url settings = .error e ∧ output = "Error: " ++ e)
  ∨ (∃ eb, _resolve_base_url base_url settings = .ok eb
      ∧ ((∃ e, client eb = .error e ∧ output = "Error: " ++ e)
         ∨ (∃ v, client eb = .ok v ∧ output = render v)))

/-- Any pipeline of the shape `resolve; call; render` satisfies
`boundarySpec`. -/
theorem simpleTool_cases {α : Type} (settings : Settings) (client : String → Except String α)
    (render : α → String) (base_url : String) :
    boundarySpec settings base_url client render
      (runTool (do
        let eb ← _resolve_base_url base_url settings
        let r ← client eb
        pure (render r))) := by
  unfold boundarySpec
  cases hr : _resolve_base_url base_url settings with
  | error e => exact .inl ⟨e, rfl, by simp [runTool, hr, Bind.bind, Except.bind]⟩
  | ok eb =>
    refine .inr ⟨eb, rfl, ?_⟩
    cases hc : client eb with
    | error e =>
      exact .inl ⟨e, rfl, by simp [runTool, hr, hc, Bind.bind, Except.bind]⟩
    | ok v =>
      refine .inr ⟨v, rfl, ?_⟩
      simp [runTool, hr, hc, Bind.bind, Except.bind, Pure.pure, Except.pure]

/-- C5: every MCP tool entry point returns a string on every input; a failure
in any pipeline step is caught at the boundary and rendered as
`"Error: {message}"`, a success as the result's own rendering.  For the
single-client-call tools this is the full `boundarySpec` characterization
(error messages verbatim); for the tools with JSON-argument parsing the
output is still always either a rendering or an `"Error: ..."` string. -/
theorem c5_tools_return_strings :
    (∀ (settings : Settings) (client : String → String → Except String EntryResult)
        (entry_id : Int) (base_url download_dir : String),
      boundarySpec settings base_url
        (fun eb => client eb (if download_dir ≠ "" then download_dir else settings.download_dir))
        EntryResult.format_output
        (fetch_shared_entry settings client entry_id base_url download_dir))
    ∧ (∀ (settings : Settings) (parseJson : String → Except String (List (String × JVal)))
        (client : String → Int → Int → Option (List (String × JVal)) →
          Except String EntryListResult)
        (base_url : String) (page per_page : Int) (filters : String),
      (∃ e, list_entries settings parseJson client base_url page per_page filters
          = "Error: " ++ e)
      ∨ (∃ v : EntryListResult,
          list_entries settings parseJson client base_url page per_page filters
            = v.format_output))
    ∧ (∀ (settings : Settings) (parseJson : String → Except String JVal)
        (parseObj : String → Except String (List (String × JVal)))
        (client : String → Int → List (String × JVal) → Except String Entry)
        (entry_id : Int) (base_url subject body custom_fields : String),
      (∃ e, update_entry settings parseJson parseObj client entry_id base_url subject body
          custom_fields = "Error: " ++ e)
      ∨ (∃ v : Entry, update_entry settings parseJson parseObj client entry_id base_url subject
          body custom_fields = "Updated entry #" ++ toString v.id ++ ": " ++ v.subject))
    ∧ (∀ (settings : Settings) (client : String → Except String MessageResult)
        (entry_id : Int) (base_url : String),
      boundarySpec settings base_url client MessageResult.format_output
        (delete_entry settings client entry_id base_url))
    ∧ (∀ (settings : Settings) (client : String → Except String CustomFieldListResult)
        (base_url : String),
      boundarySpec settings base_url client CustomFieldListResult.format_output
        (list_custom_fields settings client base_url))
    ∧ (∀ (settings : Settings) (client : String → Except String CustomField)
        (name base_url description : String) (sort_order : Int),
      boundarySpec settings base_url client CustomField.format_output
        (create_custom_field settings client name base_url description sort_order))
    ∧ (∀ (settings : Settings) (client : String → Except String CustomField)
        (name base_url description : String) (sort_order : Int),
      boundarySpec settings base_url client CustomField.format_output
        (update_custom_field settings client name base_url description sort_order))
    ∧ (∀ (settings : Settings) (client : String → Except String MessageResult)
        (name base_url : String),
      boundarySpec settings base_url client MessageResult.format_output
        (delete_custom_field settings client name base_url))
    ∧ (∀ (settings : Settings) (client : String → Except String CustomFieldExportResult)
        (base_url : String),
      boundarySpec settings base_url client CustomFieldExportResult.format_output
        (export_custom_fields settings client base_url))
    ∧ (∀ (settings : Settings) (parseJson : String → Except String JVal)
        (client : String → JVal → Except String ImportResult) (fields_json base_url : String),
      (∃ e, import_custom_fields settings parseJson client fields_json base_url
          = "Error: " ++ e)
      ∨ (∃ v : ImportResult, import_custom_fields settings parseJson client fields_json base_url
          = v.format_output))
    ∧ (∀ (settings : Settings) (client : String → Except String FieldOptionListResult)
        (field_name base_url : String),
      boundarySpec settings base_url client FieldOptionListResult.format_output
        (list_field_options settings client field_name base_url))
    ∧ (∀ (settings : Settings) (client : String → Except String FieldOption)
        (field_name name base_url : String),
      boundarySpec settings base_url client FieldOption.format_output
        (create_field_option settings client field_name name base_url))
    ∧ (∀ (settings : Settings) (client : String → Except String FieldOption)
        (field_name : String) (option_id : Int) (name base_url : String),
      boundarySpec settings base_url client FieldOption.format_output
        (update_field_option settings client field_name option_id name base_url))
    ∧ (∀ (settings : Settings) (client : String → Except String MessageResult)
        (field_name : String) (option_id : Int) (base_url : String),
      boundarySpec settings base_url client MessageResult.format_output
        (delete_field_option settings client field_name option_id base_url))
    ∧ (∀ (settings : Settings) (client : String → Except String MessageResult)
        (attachment_id : Int) (base_url : String),
      boundarySpec settings base_url client MessageResult.format_output
        (delete_attachment settings client attachment_id base_url))
    ∧ (∀ (settings : Settings) (client : String → Except String AuthInfo) (base_url : String),
      boundarySpec settings base_url client AuthInfo.format_output
        (get_auth_info settings client base_url))
    ∧ (∀ (settings : Settings) (client : String → Except String FieldListResult)
        (base_url : String),
      boundarySpec settings base_url client FieldListResult.format_output
        (list_fields settings client base_url))
    ∧ (∀ (settings : Settings) (parseJson : String → Except String (List (String × JVal)))
        (client : String → Except String String)
        (base_url text_or_url file_path extra_fields : String),
      (∃ e, create_entry settings parseJson client base_url text_or_url file_path extra_fields
          = "Error: " ++ e)
      ∨ (∃ v : String, create_entry settings parseJson client base_url text_or_url file_path
          extra_fields = "Created entry: " ++ v)) := by
  refine ⟨fun settings client entry_id base_url download_dir => simpleTool_cases settings
      (fun eb => client eb (if download_dir ≠ "" then download_dir else settings.download_dir))
      EntryResult.format_output base_url,
    ?_, ?_,
    fun settings client entry_id base_url =>
      simpleTool_cases settings client MessageResult.format_output base_url,
    fun settings client base_url =>
      simpleTool_cases settings client CustomFieldListResult.format_output base_url,
    fun settings client name base_url description sort_order =>
      simpleTool_cases settings client CustomField.format_output base_url,
    fun settings client name base_url description sort_order =>
      simpleTool_cases settings client CustomField.format_output base_url,
    fun settings client name base_url =>
      simpleTool_cases settings client MessageResult.format_output base_url,
    fun settings client base_url =>
      simpleTool_cases settings client CustomFieldExportResult.format_output base_url,
    ?_,
    fun settings client field_name base_url =>
      simpleTool_cases settings client FieldOptionListResult.format_output base_url,
    fun settings client field_name name base_url =>
      simpleTool_cases settings client FieldOption.format_output base_url,
    fun settings client field_name option_id name base_url =>
      simpleTool_cases settings client FieldOption.format_output base_url,
    fun settings client field_name option_id base_url =>
      simpleTool_cases settings client MessageResult.format_output base_url,
    fun settings client attachment_id base_url =>
      simpleTool_cases settings client MessageResult.format_output base_url,
    fun settings client base_url =>
      simpleTool_cases settings client AuthInfo.format_output base_url,
    fun settings client base_url =>
      simpleTool_cases settings client FieldListResult.format_output base_url,
    ?_⟩
  · intro settings parseJson client base_url page per_page filters
    cases hr : _resolve_base_url base_url settings with
    | error e =>
      exact .inl ⟨e, by simp [list_entries, runTool, hr, Bind.bind, Except.bind]⟩
    | ok eb =>
      by_cases hf : filters = ""
      · cases hm : mergeProjectFilter settings none with
        | error e =>
          exact .inl ⟨e, by simp [list_entries, runTool, hr, hf, hm, Bind.bind, Except.bind]⟩
        | ok merged =>
          cases hc : client eb page per_page merged with
          | error e =>
            exact .inl ⟨e, by
              simp [list_entries, runTool, hr, hf, hm, hc, Bind.bind, Except.bind]⟩
          | ok v =>
            exact .inr ⟨v, by
              simp [list_entries, runTool, hr, hf, hm, hc, Bind.bind, Except.bind,
                Pure.pure, Except.pure]⟩
      · cases hpj : parseJson filters with
        | error je =>
          exact .inl ⟨"Invalid filters JSON: " ++ je, by
            simp [list_entries, runTool, hr, hf, hpj, Bind.bind, Except.bind]⟩
        | ok kvs =>
          cases hm : mergeProjectFilter settings (some kvs) with
          | error e =>
            exact .inl ⟨e, by
              simp [list_entries, runTool, hr, hf, hpj, hm, Bind.bind, Except.bind]⟩
          | ok merged =>
            cases hc : client eb page per_page merged with
            | error e =>
              exact .inl ⟨e, by
                simp [list_entries, runTool, hr, hf, hpj, hm, hc, Bind.bind, Except.bind]⟩
            | ok v =>
              exact .inr ⟨v, by
                simp [list_entries, runTool, hr, hf, hpj, hm, hc, Bind.bind, Except.bind,
                  Pure.pure, Except.pure]⟩
  · intro settings parseJson parseObj client entry_id base_url subject body custom_fields
    cases hr : _resolve_base_url base_url settings with
    | error e =>
      exact .inl ⟨e, by simp [update_entry, runTool, hr, Bind.bind, Except.bind]⟩
    | ok eb =>
      cases hbp : buildUpdatePayload parseJson parseObj subject body custom_fields with
      | error e =>
        exact .inl ⟨e, by simp [update_entry, runTool, hr, hbp, Bind.bind, Except.bind]⟩
      | ok payload =>
        cases hc : client eb entry_id payload with
        | error e =>
          exact .inl ⟨e, by
            simp [update_entry, runTool, hr, hbp, hc, Bind.bind, Except.bind]⟩
        | ok v =>
          exact .inr ⟨v, by
            simp [update_entry, runTool, hr, hbp, hc, Bind.bind, Except.bind,
              Pure.pure, Except.pure]⟩
  · intro settings parseJson client fields_json base_url
    cases hr : _resolve_base_url base_url settings with
    | error e =>
      exact .inl ⟨e, by simp [import_custom_fields, runTool, hr, Bind.bind, Except.bind]⟩
    | ok eb =>
      cases hpj : parseJson fields_json with
      | error je =>
        exact .inl ⟨"Invalid fields_json: " ++ je, by
          simp [import_custom_fields, runTool, hr, hpj, Bind.bind, Except.bind]⟩
      | ok parsed =>
        cases hc : client eb parsed with
        | error e =>
          exact .inl ⟨e, by
            simp [import_custom_fields, runTool, hr, hpj, hc, Bind.bind, Except.bind]⟩
        | ok v =>
          exact .inr ⟨v, by
            simp [import_custom_fields, runTool, hr, hpj, hc, Bind.bind, Except.bind,
              Pure.pure, Except.pure]⟩
  · intro settings parseJson client base_url text_or_url file_path extra_fields
    cases hr : _resolve_base_url base_url settings with
    | error e =>
      exact .inl ⟨e, by simp [create_entry, runTool, hr, Bind.bind, Except.bind]⟩
    | ok eb =>
      by_cases hx : extra_fields = ""
      · cases hc : client eb with
        | error e =>
          exact .inl ⟨e, by simp [create_entry, runTool, hr, hx, hc, Bind.bind, Except.bind]⟩
        | ok v =>
          exact .inr ⟨v, by
            simp [create_entry, runTool, hr, hx, hc, Bind.bind, Except.bind,
              Pure.pure, Except.pure]⟩
      · cases hpj : parseJson extra_fields with
        | error je =>
          exact .inl ⟨"Invalid extra_fields JSON: " ++ je, by
            simp [create_entry, runTool, hr, hx, hpj, Bind.bind, Except.bind]⟩
        | ok kvs =>
          cases hc : client eb with
          | error e =>
            exact .inl ⟨e, by
              simp [create_entry, runTool, hr, hx, hpj, hc, Bind.bind, Except.bind]⟩
          | ok v =>
            exact .inr ⟨v, by
              simp [create_entry, runTool, hr, hx, hpj, hc, Bind.bind, Except.bind,
                Pure.pure, Except.pure]⟩

/-- With no configured base URL and an empty argument, resolution fails with
the fixed configuration message. -/
theorem resolve_empty (settings : Settings) (h : settings.base_url = "") :
    _resolve_base_url "" settings = .error noBaseUrlMsg := by
  simp [_resolve_base_url, h]

/-- Any `resolve; call; render` pipeline invoked with no base URL anywhere
returns the configuration error string, for every client behaviour. -/
theorem simpleTool_noBase {α : Type} (settings : Settings) (client : String → Except String α)
    (render : α → String) (h : settings.base_url = "") :
    runTool (do
      let eb ← _resolve_base_url "" settings
      let r ← client eb
      pure (render r)) = "Error: " ++ noBaseUrlMsg := by
  simp [runTool, resolve_empty settings h, Bind.bind, Except.bind]

/-- C7: when no base URL is configured and the `base_url` argument is empty,
every tool returns `"Error: " ++ noBaseUrlMsg` — a string naming
`SHARE_API_BASE_URL` — for every client and parser behaviour (the output does
not depend on the client oracle, so no network request is consulted). -/
theorem c7_missing_base_url :
    containsSub "SHARE_API_BASE_URL".toList noBaseUrlMsg.toList = true
    ∧ (∀ (settings : Settings) (client : String → String → Except String EntryResult)
        (entry_id : Int) (download_dir : String), settings.base_url = "" →
      fetch_shared_entry settings client entry_id "" download_dir = "Error: " ++ noBaseUrlMsg)
    ∧ (∀ (settings : Settings) (parseJson : String → Except String (List (String × JVal)))
        (client : String → Int → Int → Option (List (String × JVal)) →
          Except String EntryListResult)
        (page per_page : Int) (filters : String), settings.base_url = "" →
      list_entries settings parseJson client "" page per_page filters
        = "Error: " ++ noBaseUrlMsg)
    ∧ (∀ (settings : Settings) (parseJson : String → Except String JVal)
        (parseObj : String → Except String (List (String × JVal)))
        (client : String → Int → List (String × JVal) → Except String Entry)
        (entry_id : Int) (subject body custom_fields : String), settings.base_url = "" →
      update_entry settings parseJson parseObj client entry_id "" subject body custom_fields
        = "Error: " ++ noBaseUrlMsg)
    ∧ (∀ (settings : Settings) (client : String → Except String MessageResult)
        (entry_id : Int), settings.base_url = "" →
      delete_entry settings client entry_id "" = "Error: " ++ noBaseUrlMsg)
    ∧ (∀ (settings : Settings) (client : String → Except String CustomFieldListResult),
        settings.base_url = "" →
      list_custom_fields settings client "" = "Error: " ++ noBaseUrlMsg)
    ∧ (∀ (settings : Settings) (client : String → Except String CustomField)
        (name description : String) (sort_order : Int), settings.base_url = "" →
      create_custom_field settings client name "" description sort_order
        = "Error: " ++ noBaseUrlMsg)
    ∧ (∀ (settings : Settings) (client : String → Except String CustomField)
        (name description : String) (sort_order : Int), settings.base_url = "" →
      update_custom_field settings client name "" description sort_order
        = "Error: " ++ noBaseUrlMsg)
    ∧ (∀ (settings : Settings) (client : String → Except String MessageResult)
        (name : String), settings.base_url = "" →
      delete_custom_field settings client name "" = "Error: " ++ noBaseUrlMsg)
    ∧ (∀ (settings : Settings) (client : String → Except String CustomFieldExportResult),
        settings.base_url = "" →
      export_custom_fields settings client "" = "Error: " ++ noBaseUrlMsg)
    ∧ (∀ (settings : Settings) (parseJson : String → Except String JVal)
        (client : String → JVal → Except String ImportResult) (fields_json : String),
        settings.base_url = "" →
      import_custom_fields settings parseJson client fields_json ""
        = "Error: " ++ noBaseUrlMsg)
    ∧ (∀ (settings : Settings) (client : String → Except String FieldOptionListResult)
        (field_name : String), settings.base_url = "" →
      list_field_options settings client field_name "" = "Error: " ++ noBaseUrlMsg)
    ∧ (∀ (settings : Settings) (client : String → Except String FieldOption)
        (field_name name : String), settings.base_url = "" →
      create_field_option settings client field_name name "" = "Error: " ++ noBaseUrlMsg)
    ∧ (∀ (settings : Settings) (client : String → Except String FieldOption)
        (field_name : String) (option_id : Int) (name : String), settings.base_url = "" →
      update_field_option settings client field_name option_id name ""
        = "Error: " ++ noBaseUrlMsg)
    ∧ (∀ (settings : Settings) (client : String → Except String MessageResult)
        (field_name : String) (option_id : Int), settings.base_url = "" →
      delete_field_option settings client field_name option_id "" = "Error: " ++ noBaseUrlMsg)
    ∧ (∀ (settings : Settings) (client : String → Except String MessageResult)
        (attachment_id : Int), settings.base_url = "" →
      delete_attachment settings client attachment_id "" = "Error: " ++ noBaseUrlMsg)
    ∧ (∀ (settings : Settings) (client : String → Except String AuthInfo),
        settings.base_url = "" →
      get_auth_info settings client "" = "Error: " ++ noBaseUrlMsg)
    ∧ (∀ (settings : Settings) (client : String → Except String FieldListResult),
        settings.base_url = "" →
      list_fields settings client "" = "Error: " ++ noBaseUrlMsg)
    ∧ (∀ (settings : Settings) (parseJson : String → Except String (List (String × JVal)))
        (client : String → Except String String) (text_or_url file_path extra_fields : String),
        settings.base_url = "" →
      create_entry settings parseJson client "" text_or_url file_path extra_fields
        = "Error: " ++ noBaseUrlMsg) := by
  refine ⟨by decide,
    fun settings client entry_id download_dir h => simpleTool_noBase settings
      (fun eb => client eb (if download_dir ≠ "" then download_dir else settings.download_dir))
      EntryResult.format_output h,
    fun settings parseJson client page per_page filters h => ?_,
    fun settings parseJson parseObj client entry_id subject body custom_fields h => ?_,
    fun settings client entry_id h =>
      simpleTool_noBase settings client MessageResult.format_output h,
    fun settings client h =>
      simpleTool_noBase settings client CustomFieldListResult.format_output h,
    fun settings client name description sort_order h =>
      simpleTool_noBase settings client CustomField.format_output h,
    fun settings client name description sort_order h =>
      simpleTool_noBase settings client CustomField.format_output h,
    fun settings client name h =>
      simpleTool_noBase settings client MessageResult.format_output h,
    fun settings client h =>
      simpleTool_noBase settings client CustomFieldExportResult.format_output h,
    fun settings parseJson client fields_json h => ?_,
    fun settings client field_name h =>
      simpleTool_noBase settings client FieldOptionListResult.format_output h,
    fun settings client field_name name h =>
      simpleTool_noBase settings client FieldOption.format_output h,
    fun settings client field_name option_id name h =>
      simpleTool_noBase settings client FieldOption.format_output h,
    fun settings client field_name option_id h =>
      simpleTool_noBase settings client MessageResult.format_output h,
    fun settings client attachment_id h =>
      simpleTool_noBase settings client MessageResult.format_output h,
    fun settings client h =>
      simpleTool_noBase settings client AuthInfo.format_output h,
    fun settings client h =>
      simpleTool_noBase settings client FieldListResult.format_output h,
    fun settings parseJson client text_or_url file_path extra_fields h => ?_⟩
  · simp [list_entries, runTool, resolve_empty settings h, Bind.bind, Except.bind]
  · simp [update_entry, runTool, resolve_empty settings h, Bind.bind, Except.bind]
  · simp [import_custom_fields, runTool, resolve_empty settings h, Bind.bind, Except.bind]
  · simp [create_entry, runTool, resolve_empty settings h, Bind.bind, Except.bind]

/-- Witness for C7: a concrete unconfigured environment returns the
configuration error string for a concrete tool call. -/
theorem c7_witness :
    fetch_shared_entry ⟨"", "./downloads", "", "", ""⟩ (fun _ _ => .error "net") 1 "" ""
      = "Error: " ++ noBaseUrlMsg
    ∧ containsSub "SHARE_API_BASE_URL".toList noBaseUrlMsg.toList = true :=
  ⟨c7_missing_base_url.2.1 ⟨"", "./downloads", "", "", ""⟩ (fun _ _ => .error "net") 1 "" rfl,
   c7_missing_base_url.1⟩

/-- C8: when a default project id is configured and the caller did not supply
`"project_id"` (or supplied no filters at all), the filters handed to the
client gain `project_id = int(settings.project_id)` appended; when the caller
supplied the key explicitly, or no project id is configured, the filters pass
through unchanged.  The last clause shows `list_entries` invokes the client
with exactly the merged filters. -/
theorem c8_project_filter_merge (settings : Settings)
    (parsed : Option (List (String × JVal))) :
    (settings.project_id = "" → mergeProjectFilter settings parsed = .ok parsed)
    ∧ (callerSuppliedProject parsed = true → mergeProjectFilter settings parsed = .ok parsed)
    ∧ (∀ n : Int, settings.project_id ≠ "" → pyIntOfString settings.project_id = some n →
        callerSuppliedProject parsed = false →
        mergeProjectFilter settings parsed
          = .ok (some ((parsed.getD []) ++ [("project_id", JVal.num n)])))
    ∧ (∀ (parseJson : String → Except String (List (String × JVal)))
        (client : String → Int → Int → Option (List (String × JVal)) →
          Except String EntryListResult)
        (base_url : String) (page per_page : Int) (filters : String) (eb : String)
        (kvs : List (String × JVal)) (merged : Option (List (String × JVal))),
        _resolve_base_url base_url settings = .ok eb →
        filters ≠ "" → parseJson filters = .ok kvs →
        mergeProjectFilter settings (some kvs) = .ok merged →
        list_entries settings parseJson client base_url page per_page filters
          = runTool (do
              let r ← client eb page per_page merged
              pure r.format_output)) := by
  refine ⟨fun h => ?_, fun h => ?_, fun n h1 h2 h3 => ?_, ?_⟩
  · simp [mergeProjectFilter, h]
  · simp [mergeProjectFilter, h]
  · simp [mergeProjectFilter, h1, h2, h3]
  · intro parseJson client base_url page per_page filters eb kvs merged hr hf hpj hm
    simp [list_entries, hr, hf, hpj, hm, Bind.bind, Except.bind]

/-- Witness for C8 at concrete configurations: a configured project id 7 is
merged into absent filters; an explicit `project_id` passes through; an
unconfigured project id changes nothing. -/
theorem c8_witness :
    mergeProjectFilter ⟨"http://x", "./downloads", "", "", "7"⟩ none
      = .ok (some [("project_id", JVal.num 7)])
    ∧ mergeProjectFilter ⟨"http://x", "./downloads", "", "", "7"⟩
        (some [("project_id", JVal.num 1)])
      = .ok (some [("project_id", JVal.num 1)])
    ∧ mergeProjectFilter ⟨"http://x", "./downloads", "", "", ""⟩
        (some [("status_id", JVal.num 2)])
      = .ok (some [("status_id", JVal.num 2)]) := by
  refine ⟨?_, ?_, ?_⟩
  · have h := (c8_project_filter_merge ⟨"http://x", "./downloads", "", "", "7"⟩ none).2.2.1
      7 (by decide) (by decide) rfl
    simpa using h
  · exact (c8_project_filter_merge ⟨"http://x", "./downloads", "", "", "7"⟩
      (some [("project_id", JVal.num 1)])).2.1 rfl
  · exact (c8_project_filter_merge ⟨"http://x", "./downloads", "", "", ""⟩
      (some [("status_id", JVal.num 2)])).1 rfl

/-- A concrete stand-in for `json.loads` agreeing with it on the inputs used
by the C9 counterexample: the two-character string "\x7b\x7d" decodes to the
empty JSON object. -/
def demoParse : String → Except String JVal := fun s =>
  if s = "\x7b\x7d" then .ok (.obj []) else .error "demo"

/-- A concrete stand-in for `json.loads` for object-typed arguments; never
consulted by the C9 counterexample. -/
def demoParseObj : String → Except String (List (String × JVal)) := fun _ => .error "demo"

/-- Counterexample to C9 as stated: with subject and custom_fields empty and
the body argument the non-empty string "\x7b\x7d" (which decodes to the empty
JSON object, a falsy value), the PUT payload contains `body` bound to that
empty object — the gate is on the raw argument string, not on the parsed
value, so the tool can set an entry's body to an empty value. -/
theorem c9_counterexample :
    buildUpdatePayload demoParse demoParseObj "" "\x7b\x7d" "" = .ok [("body", JVal.obj [])]
    ∧ pyTruthy (JVal.obj []) = false := ⟨rfl, rfl⟩

/-- C9 (amended): an argument given as the empty string is omitted from the
PUT payload; the subject argument is included exactly when non-empty; the
body argument is included whenever the argument string is non-empty and
decodes — whatever the decoded value, empty or not; custom fields are merged
whenever that argument string is non-empty; with all three arguments empty
the payload is the empty JSON object. -/
theorem c9_update_payload (parseJson : String → Except String JVal)
    (parseObj : String → Except String (List (String × JVal)))
    (subject body custom_fields : String) :
    (subject = "" → body = "" → custom_fields = "" →
        buildUpdatePayload parseJson parseObj subject body custom_fields = .ok [])
    ∧ (subject ≠ "" → buildUpdatePayload parseJson parseObj subject "" ""
        = .ok [("subject", JVal.str subject)])
    ∧ (∀ v, body ≠ "" → parseJson body = .ok v →
        buildUpdatePayload parseJson parseObj "" body "" = .ok [("body", v)])
    ∧ (∀ kvs, custom_fields ≠ "" → parseObj custom_fields = .ok kvs →
        buildUpdatePayload parseJson parseObj "" "" custom_fields
          = .ok (dictUpdate [] kvs)) := by
  refine ⟨fun h1 h2 h3 => ?_, fun h => ?_, fun v h hpj => ?_, fun kvs h hpo => ?_⟩
  · simp [buildUpdatePayload, h1, h2, h3, Bind.bind, Except.bind]
  · simp [buildUpdatePayload, h, Bind.bind, Except.bind]
  · simp [buildUpdatePayload, h, hpj, Bind.bind, Except.bind]
  · simp [buildUpdatePayload, h, hpo, Bind.bind, Except.bind]

/-- Witness for C9 (amended) at concrete arguments. -/
theorem c9_witness :
    buildUpdatePayload demoParse demoParseObj "" "" "" = .ok []
    ∧ buildUpdatePayload demoParse demoParseObj "Hi" "" "" = .ok [("subject", JVal.str "Hi")]
    ∧ buildUpdatePayload demoParse demoParseObj "" "\x7b\x7d" ""
        = .ok [("body", JVal.obj [])] :=
  ⟨(c9_update_payload demoParse demoParseObj "" "" "").1 rfl rfl rfl,
   (c9_update_payload demoParse demoParseObj "Hi" "" "").2.1 (by decide),
   (c9_update_payload demoParse demoParseObj "" "\x7b\x7d" "").2.2.1 (JVal.obj [])
     (by decide) rfl⟩
